import Mathlib

/-!
# terraform-resource: check and fetch flows

A shallow embedding of the Go packages `authentication`, `check` and `in` of the
terraform-resource repository, with theorems about the version check, the fetch flow
and the Vault configuration validation.

Conventions of the embedding:

* a Go `error` is the `String` of its message; a collaborator returning `error` answers
  with an `Option String` (`none` is `nil`), one returning `(T, error)` with an
  `Except String T` (the zero value that Go returns next to a non-nil error is dropped);
* a function of the repository ends in one of three ways, the constructors of `Outcome`:
  it returns a value, it returns a non-nil error, or it panics;
* every call to a collaborator outside the process logic (the Vault client, the storage
  driver, the file system, the Terraform client) is answered by a field of `Deps` and is
  recorded, in order, in a trace of `Event`s, which is kept on the error and panic paths;
* `time.Time` is the integer offset of the instant from the zero time `time.Time{}`.
-/

namespace TerraformResource

/-! ## Effects -/

/-- How a Go function ends: with a value, with a non-nil error, or in a run-time panic. -/
inductive Outcome (α : Type) where
  | ok (a : α)
  | error (msg : String)
  | panic
  deriving DecidableEq, Repr

/-- A sequential computation that may return an error or panic and that records the
external calls it makes. The trace survives an error and a panic. -/
def Eff (ε α : Type) : Type := List ε → Outcome α × List ε

namespace Eff

/-- Return a value, recording nothing. -/
def ret {ε α : Type} (a : α) : Eff ε α := fun t => (Outcome.ok a, t)

/-- Sequencing: the second computation runs only if the first one returned a value. -/
def andThen {ε α β : Type} (m : Eff ε α) (f : α → Eff ε β) : Eff ε β := fun t =>
  match m t with
  | (Outcome.ok a, t1) => f a t1
  | (Outcome.error e, t1) => (Outcome.error e, t1)
  | (Outcome.panic, t1) => (Outcome.panic, t1)

instance instMonadEff {ε : Type} : Monad (Eff ε) where
  pure := ret
  bind := andThen

/-- Return early with an error (Go: `return zero, fmt.Errorf(...)`). -/
def fail {ε α : Type} (msg : String) : Eff ε α := fun t => (Outcome.error msg, t)

/-- A run-time panic. -/
def crash {ε α : Type} : Eff ε α := fun t => (Outcome.panic, t)

/-- An external call: record the event, then continue with the collaborator's answer. -/
def call {ε α : Type} (e : ε) (answer : α) : Eff ε α := fun t => (Outcome.ok answer, t ++ [e])

/-- A call of a function of this repository that returns `(T, error)`: the caller gets
the pair and tests the error itself; a panic of the callee goes on. -/
def attempt {ε α : Type} (m : Eff ε α) : Eff ε (Except String α) := fun t =>
  match m t with
  | (Outcome.ok a, t1) => (Outcome.ok (Except.ok a), t1)
  | (Outcome.error e, t1) => (Outcome.ok (Except.error e), t1)
  | (Outcome.panic, t1) => (Outcome.panic, t1)

/-- A use of the pointer `p`: a nil pointer dereference panics. -/
def deref {ε α : Type} (p : Option α) : Eff ε α :=
  match p with
  | some a => ret a
  | none => crash

/-- Go's `defer`: the event `e` happens when the body finishes, whatever its outcome,
a panic included. -/
def deferring {ε α : Type} (e : ε) (body : Eff ε α) : Eff ε α := fun t =>
  ((body t).1, (body t).2 ++ [e])

/-- Run a computation from the empty trace. -/
def exec {ε α : Type} (m : Eff ε α) : Outcome α × List ε := m []

end Eff

/-! ## Standard library -/

/-- An instant of `time.Time`, as its offset from the zero time `time.Time{}`. -/
abbrev Time : Type := Int

/-- The method `time.Time.After`: strictly later. -/
def Time.After (t u : Time) : Bool := decide (u < t)

/-- What `fmt` prints for the verb `%d` given a string operand: the operand is not an
integer, so the bad-verb form `%!d(string=OPERAND)` is written. -/
def fmtVerbDOfString (operand : String) : String := "%!d(string=" ++ operand ++ ")"

/-- The function `strings.Join`. -/
def stringsJoin (elems : List String) (sep : String) : String := sep.intercalate elems

/-! ## Package authentication -/

namespace authentication

/-- The struct `VaultConfiguration` of authentication/models.go. -/
structure VaultConfiguration where
  Address : String
  SecretPath : String
  Token : String
  TTL : Int
  deriving DecidableEq, Repr

/-- The struct `AwsCredentials` of authentication/models.go. -/
structure AwsCredentials where
  AccessKeyID : String
  SecretAccessKey : String
  SessionToken : String
  deriving DecidableEq, Repr

/-- The zero value `VaultConfiguration{}`. -/
def VaultConfiguration.zero : VaultConfiguration :=
  { Address := "", SecretPath := "", Token := "", TTL := 0 }

/-- The zero value `AwsCredentials{}`. -/
def AwsCredentials.zero : AwsCredentials :=
  { AccessKeyID := "", SecretAccessKey := "", SessionToken := "" }

/-- A non-nil `interface{}` value found in `Secret.Data`: a string, or a value of
another dynamic type. -/
inductive DataValue where
  | str (s : String)
  | other
  deriving DecidableEq, Repr

/-- The struct `api.Secret` of the Vault client library, with the field that
vault.go reads. `Data` is a `map[string]interface{}`; a key bound to nil reads as an
absent key does, so only the non-nil bindings are kept. -/
structure Secret where
  Data : List (String × DataValue)
  deriving DecidableEq, Repr

/-- The list `missingFields` of `VaultConfiguration.Validate` before the names are
quoted. -/
def VaultConfiguration.missingFields (m : VaultConfiguration) : List String :=
  let missingFields : List String := []
  let fieldPrefix := "VaultConfig"
  let missingFields :=
    if m.Address = "" then missingFields ++ [fieldPrefix ++ ".address"] else missingFields
  let missingFields :=
    if m.SecretPath = "" then missingFields ++ [fieldPrefix ++ ".secret_path"] else missingFields
  let missingFields :=
    if m.Token = "" then missingFields ++ [fieldPrefix ++ ".token"] else missingFields
  let missingFields :=
    if m.TTL = 0 then missingFields ++ [fmtVerbDOfString fieldPrefix ++ ".ttl"] else missingFields
  missingFields

/-- The method `VaultConfiguration.Validate` of authentication/models.go. -/
def VaultConfiguration.Validate (m : VaultConfiguration) : Option String :=
  let missingFields := m.missingFields
  if missingFields.length > 0 then
    let missingFields := missingFields.map fun value => "'" ++ value ++ "'"
    some ("Missing fields: " ++ stringsJoin missingFields ", ")
  else
    none

end authentication

open authentication

/-! ## Data of the packages storage, terraform and models

The declarations of these types are not part of the sources at hand. Each record below
has the fields that check/check.go and in/in.go read or write; what else a value may
carry is a type parameter, and the methods on them are fields of `Deps`. -/

namespace storage

/-- The struct `storage.Model`: the credential fields that the runners overwrite, and
the remaining backend configuration in `Rest`. -/
structure Model (ρ : Type) where
  AccessKeyID : String
  SecretAccessKey : String
  SessionToken : String
  Rest : ρ
  deriving DecidableEq, Repr

end storage

namespace terraform

/-- The struct `terraform.StateFile`, with the storage driver it is bound to. -/
structure StateFile (D : Type) where
  LocalPath : String
  RemotePath : String
  StorageDriver : D
  deriving DecidableEq, Repr

end terraform

namespace models

/-- The struct `models.Terraform`, with the fields in.go sets. `Env` is a Go map, kept
as an association list with unique keys; `none` is the nil map. -/
structure Terraform where
  StateFileLocalPath : String
  StateFileRemotePath : String
  Env : Option (List (String × String))
  OutputModule : String
  deriving DecidableEq, Repr

/-- The struct `models.Source` of models/source.go. -/
structure Source (ρ : Type) where
  VaultConfiguration : authentication.VaultConfiguration
  Storage : storage.Model ρ
  Terraform : Terraform
  deriving DecidableEq, Repr

/-- The request parameters `models.InRequest.Params`. -/
structure Params where
  Action : String
  OutputModule : String
  OutputStatefile : Bool
  deriving DecidableEq, Repr

/-- The struct `models.InRequest`, over the version type `V`. -/
structure InRequest (V ρ : Type) where
  Source : Source ρ
  Version : V
  Params : Params
  deriving DecidableEq, Repr

/-- The struct `models.MetadataField`. -/
structure MetadataField where
  Name : String
  Value : String
  deriving DecidableEq, Repr

/-- The struct `models.InResponse`. -/
structure InResponse (V : Type) where
  Version : V
  Metadata : List MetadataField
  deriving DecidableEq, Repr

end models

namespace terraform

/-- The struct `terraform.Client`. -/
structure Client (D : Type) where
  Model : models.Terraform
  StorageDriver : D
  deriving DecidableEq, Repr

end terraform

/-- The assignment `m[k] = v` on a Go map. -/
def mapSet (m : List (String × String)) (k v : String) : List (String × String) :=
  if m.any (fun kv => kv.1 == k) then
    m.map (fun kv => if kv.1 == k then (k, v) else kv)
  else
    m ++ [(k, v)]

/-- The lookup `m[k]` with its presence flag. -/
def mapGet (m : List (String × String)) (k : String) : Option String :=
  (m.find? (fun kv => kv.1 == k)).map Prod.snd

/-! ## Collaborators -/

/-- A call that leaves the process logic, with its arguments. -/
inductive Event (ρ D O : Type) where
  | VaultNewClient (address : String)
  | VaultWrite (v : VaultConfiguration)
  | BuildDriver (m : storage.Model ρ)
  | LatestVersion (f : terraform.StateFile D)
  | WriteFile (path contents : String)
  | TempDir (dir pre : String)
  | RemoveAll (path : String)
  | ExistsAsTainted (f : terraform.StateFile D)
  | Exists (f : terraform.StateFile D)
  | Download (f : terraform.StateFile D)
  | Output (c : terraform.Client D)
  | Create (path : String)
  | Encode (path : String) (o : O)
  | Version (c : terraform.Client D)
  | ReadFile (path : String)
  deriving DecidableEq, Repr

/-- Everything the sources at hand call that is not defined in them: the methods of
`models.Version` (type `V`), `storage.Model`, `storage.Version` (type `SV`), the storage
driver (type `D`), `terraform.StateFile`, `terraform.Client`, the Terraform output
(type `O`), the Vault client library, and the file system. -/
structure Deps (V SV ρ D O : Type) where
  /-- The field `EnvName` of `models.Version`. -/
  EnvName : V → String
  /-- The method `models.Version.IsZero`. -/
  VersionIsZero : V → Bool
  /-- The method `models.Version.Validate`. -/
  VersionValidate : V → Option String
  /-- The method `models.Version.LastModifiedTime`. -/
  LastModifiedTime : V → Time
  /-- The method `models.Version.IsPlan`. -/
  IsPlan : V → Bool
  /-- The function `models.NewVersion`. -/
  NewVersion : SV → V
  /-- The constant `models.DestroyAction`. -/
  DestroyAction : String
  /-- The method `models.Terraform.Validate`. -/
  TerraformValidate : models.Terraform → Option String
  /-- The method `storage.Model.Validate`. -/
  StorageValidate : storage.Model ρ → Option String
  /-- The function `storage.BuildDriver`. -/
  BuildDriver : storage.Model ρ → D
  /-- The method `storage.Version.IsZero`. -/
  StorageVersionIsZero : SV → Bool
  /-- The field `LastModified` of `storage.Version`. -/
  LastModified : SV → Time
  /-- The function `api.NewClient` of the Vault client library, for the configuration
  with the given address: the error it returns. -/
  VaultNewClient : String → Option String
  /-- The call `client.Logical().Write(v.SecretPath, {"ttl": v.TTL})` on the client for
  `v.Address` with the token `v.Token`: a `(*Secret, error)`, whose pointer may be nil. -/
  VaultWrite : VaultConfiguration → Except String (Option Secret)
  /-- The method `terraform.StateFile.LatestVersion`. -/
  LatestVersion : terraform.StateFile D → Except String SV
  /-- The method `terraform.StateFile.ExistsAsTainted`. -/
  ExistsAsTainted : terraform.StateFile D → Except String Bool
  /-- The method `terraform.StateFile.ConvertToTainted`. -/
  ConvertToTainted : terraform.StateFile D → terraform.StateFile D
  /-- The method `terraform.StateFile.Exists`. -/
  Exists : terraform.StateFile D → Except String Bool
  /-- The method `terraform.StateFile.Download`. -/
  Download : terraform.StateFile D → Except String SV
  /-- The method `terraform.Client.Output`. -/
  Output : terraform.Client D → Except String O
  /-- The method `terraform.Client.Version`. -/
  ClientVersion : terraform.Client D → Except String String
  /-- The map returned by `terraform.Result.SanitizedOutput`, in the order in which the
  `range` loop visits it. -/
  SanitizedOutput : O → List (String × String)
  /-- The function `path.Join` on two elements. -/
  pathJoin : String → String → String
  /-- The function `os.TempDir`. -/
  osTempDir : String
  /-- The function `ioutil.TempDir`. -/
  TempDir : String → String → Except String String
  /-- The function `ioutil.WriteFile`. -/
  WriteFile : String → String → Option String
  /-- The function `ioutil.ReadFile`. -/
  ReadFile : String → Except String String
  /-- The function `os.Create`; the file handle is the path. -/
  Create : String → Option String
  /-- Encoding the raw output of the result as JSON into the created file. -/
  Encode : String → O → Option String

/-- After a call returning `(T, error)`: on an error return early with the message
formatted as `what` followed by the error, otherwise continue with the value. -/
def Eff.ofExcept {ε α : Type} (what : String) (r : Except String α) : Eff ε α :=
  match r with
  | Except.ok a => Eff.ret a
  | Except.error e => Eff.fail (what ++ e)

/-- After a call returning `error`: on an error return early with the message formatted
as `what` followed by the error, otherwise continue. -/
def Eff.ofError {ε : Type} (what : String) (r : Option String) : Eff ε Unit :=
  match r with
  | none => Eff.ret ()
  | some e => Eff.fail (what ++ e)

/-- After a call returning `(T, error)`: on an error return early with the message
`msg`, which does not mention the error, otherwise continue with the value. -/
def Eff.orFail {ε α : Type} (msg : String) (r : Except String α) : Eff ε α :=
  match r with
  | Except.ok a => Eff.ret a
  | Except.error _ => Eff.fail msg

/-- The type assertion `x.(string)` on a non-nil interface value: it panics when the
dynamic type is not `string`. -/
def Eff.assertString {ε : Type} (x : DataValue) : Eff ε String :=
  match x with
  | DataValue.str s => Eff.ret s
  | DataValue.other => Eff.crash

namespace authentication

/-- The function `GetAwsCredentials` of authentication/vault.go. `conf.ConfigureTLS` and
`client.SetToken` set fields of the configuration and of the client; the `ttl` of
`secretData` is part of the `VaultWrite` call. `secret` is used without a nil check, and
each credential that is not nil is asserted to be a string. -/
def GetAwsCredentials {V SV ρ D O : Type} (d : Deps V SV ρ D O) (v : VaultConfiguration) :
    Eff (Event ρ D O) AwsCredentials := do
  let awsCreds := AwsCredentials.zero
  let made ← Eff.call (Event.VaultNewClient v.Address) (d.VaultNewClient v.Address)
  Eff.ofError "" made
  let answer ← Eff.call (Event.VaultWrite v) (d.VaultWrite v)
  let secret ← Eff.ofExcept "" answer
  let secret ← Eff.deref secret
  let awsCreds ←
    (match secret.Data.lookup "access_key" with
    | some x => do
      let s ← Eff.assertString x
      pure { awsCreds with AccessKeyID := s }
    | none => pure awsCreds)
  let awsCreds ←
    (match secret.Data.lookup "secret_key" with
    | some x => do
      let s ← Eff.assertString x
      pure { awsCreds with SecretAccessKey := s }
    | none => pure awsCreds)
  let awsCreds ←
    (match secret.Data.lookup "security_token" with
    | some x => do
      let s ← Eff.assertString x
      pure { awsCreds with SessionToken := s }
    | none => pure awsCreds)
  pure awsCreds

end authentication

/-! ## Package check -/

namespace check

/-- The struct `check.Runner`. -/
structure Runner where
  deriving DecidableEq, Repr

/-- The method `Runner.Run` of check/check.go. A block that assigns to a variable of the
enclosing function yields the new value of that variable. -/
def Runner.Run {V SV ρ D O : Type} (_r : Runner) (d : Deps V SV ρ D O)
    (req : models.InRequest V ρ) : Eff (Event ρ D O) (List V) := do
  let currentVersionTime : Time := 0
  let currentVersionTime ←
    (if d.VersionIsZero req.Version == false then do
      Eff.ofError "Failed to validate provided version: " (d.VersionValidate req.Version)
      pure (d.LastModifiedTime req.Version)
    else
      pure currentVersionTime)
  let vaultAuthConfigModel := req.Source.VaultConfiguration
  let req ←
    (if vaultAuthConfigModel ≠ VaultConfiguration.zero then do
      Eff.ofError "Failed to validate vault Config Model: " vaultAuthConfigModel.Validate
      let answer ← Eff.attempt (GetAwsCredentials d vaultAuthConfigModel)
      let credentials ← Eff.ofExcept "Failed to grab AWS credentials from Vault: " answer
      pure { req with Source := { req.Source with Storage := { req.Source.Storage with
        AccessKeyID := credentials.AccessKeyID
        SecretAccessKey := credentials.SecretAccessKey
        SessionToken := credentials.SessionToken } } }
    else
      pure req)
  let storageModel := req.Source.Storage
  Eff.ofError "Failed to validate storage Model: " (d.StorageValidate storageModel)
  let storageDriver ← Eff.call (Event.BuildDriver storageModel) (d.BuildDriver storageModel)
  let stateFile : terraform.StateFile D :=
    { LocalPath := "", RemotePath := "", StorageDriver := storageDriver }
  let answer ← Eff.call (Event.LatestVersion stateFile) (d.LatestVersion stateFile)
  let storageVersion ← Eff.ofExcept "Failed to check storage backend for latest version: " answer
  let resp : List V := []
  let resp :=
    if d.StorageVersionIsZero storageVersion == false
        && (d.LastModified storageVersion).After currentVersionTime then
      let version := d.NewVersion storageVersion
      resp ++ [version]
    else
      resp
  pure resp

end check

/-! ## Package in -/

namespace «in»

/-- The struct `in.Runner`. -/
structure Runner where
  OutputDir : String
  deriving DecidableEq, Repr

/-- The method `Runner.Run` of in/in.go. The deferred `os.RemoveAll(tmpDir)` is the
`Eff.deferring` around everything that follows the creation of the directory. A block
that assigns to variables of the enclosing function yields their new values. -/
def Runner.Run {V SV ρ D O : Type} (r : Runner) (d : Deps V SV ρ D O)
    (req : models.InRequest V ρ) : Eff (Event ρ D O) (models.InResponse V) := do
  Eff.ofError "Invalid Version request: " (d.VersionValidate req.Version)
  let envName := d.EnvName req.Version
  let nameFilepath := d.pathJoin r.OutputDir "name"
  let written ← Eff.call (Event.WriteFile nameFilepath envName) (d.WriteFile nameFilepath envName)
  Eff.ofError ("Failed to create name file at path '" ++ nameFilepath ++ "': ") written
  if req.Params.Action = d.DestroyAction then
    let resp : models.InResponse V := { Version := req.Version, Metadata := [] }
    pure resp
  else
  let made ← Eff.call (Event.TempDir d.osTempDir "terraform-resource-in")
    (d.TempDir d.osTempDir "terraform-resource-in")
  let tmpDir ← Eff.orFail ("Failed to create tmp dir at '" ++ d.osTempDir ++ "'") made
  Eff.deferring (Event.RemoveAll tmpDir) do
  let vaultAuthConfigModel := req.Source.VaultConfiguration
  let credentials := AwsCredentials.zero
  let (credentials, req) ←
    (if vaultAuthConfigModel ≠ VaultConfiguration.zero then do
      Eff.ofError "Failed to validate vault Config Model: " vaultAuthConfigModel.Validate
      let answer ← Eff.attempt (GetAwsCredentials d vaultAuthConfigModel)
      let credentials ← Eff.ofExcept "Failed to grab AWS credentials from Vault: " answer
      pure (credentials,
        { req with Source := { req.Source with Storage := { req.Source.Storage with
          AccessKeyID := credentials.AccessKeyID
          SecretAccessKey := credentials.SecretAccessKey
          SessionToken := credentials.SessionToken } } })
    else
      pure (credentials, req))
  let storageModel := req.Source.Storage
  Eff.ofError "Failed to validate storage Model: " (d.StorageValidate storageModel)
  let storageDriver ← Eff.call (Event.BuildDriver storageModel) (d.BuildDriver storageModel)
  let stateFile : terraform.StateFile D :=
    { LocalPath := d.pathJoin tmpDir "terraform.tfstate"
      RemotePath := d.EnvName req.Version ++ ".tfstate"
      StorageDriver := storageDriver }
  let answer ← Eff.call (Event.ExistsAsTainted stateFile) (d.ExistsAsTainted stateFile)
  let existsAsTainted ← Eff.ofExcept "Failed to check for tainted state file: " answer
  let stateFile := if existsAsTainted then d.ConvertToTainted stateFile else stateFile
  let answer ← Eff.call (Event.Exists stateFile) (d.Exists stateFile)
  let stateFileExists ← Eff.ofExcept "Failed to check for existing state file: " answer
  if !stateFileExists then
    if d.IsPlan req.Version then
      let resp : models.InResponse V := { Version := req.Version, Metadata := [] }
      pure resp
    else
      Eff.fail ("State file does not exist with key '" ++ stateFile.RemotePath ++ "'."
        ++ "\nIf you intended to run the `destroy` action, add `put.get_params.action: destroy`."
        ++ "\nThis is a temporary requirement until Concourse supports a `delete` step.")
  else
  let terraformModel : models.Terraform :=
    { StateFileLocalPath := stateFile.LocalPath
      StateFileRemotePath := stateFile.RemotePath
      Env := none
      OutputModule := "" }
  let terraformModel :=
    if credentials ≠ AwsCredentials.zero then
      let envMap : List (String × String) := []
      let envMap := mapSet envMap "AWS_ACCESS_KEY_ID" credentials.AccessKeyID
      let envMap := mapSet envMap "TF_VAR_access_key" credentials.SessionToken
      let envMap := mapSet envMap "AWS_SECRET_ACCESS_KEY" credentials.SecretAccessKey
      let envMap := mapSet envMap "TF_VAR_secret_key" credentials.SessionToken
      let envMap :=
        if credentials.SessionToken.utf8ByteSize > 0 then
          let envMap := mapSet envMap "AWS_SESSION_TOKEN" credentials.SessionToken
          mapSet envMap "TF_VAR_session_token" credentials.SessionToken
        else
          envMap
      match terraformModel.Env with
      | none => { terraformModel with Env := some envMap }
      | some env =>
        { terraformModel with Env := some (envMap.foldl (fun env kv => mapSet env kv.1 kv.2) env) }
    else
      terraformModel
  let terraformModel :=
    if req.Params.OutputModule ≠ "" then
      { terraformModel with OutputModule := req.Params.OutputModule }
    else
      terraformModel
  Eff.ofError "Failed to validate terraform Model: " (d.TerraformValidate terraformModel)
  let client : terraform.Client D := { Model := terraformModel, StorageDriver := storageDriver }
  let answer ← Eff.call (Event.Download stateFile) (d.Download stateFile)
  let storageVersion ← Eff.ofExcept "Failed to download state file from storage backend: " answer
  let version := d.NewVersion storageVersion
  let answer ← Eff.call (Event.Output client) (d.Output client)
  let tfOutput ← Eff.ofExcept "Failed to parse terraform output.\nError: " answer
  let outputFilepath := d.pathJoin r.OutputDir "metadata"
  let created ← Eff.call (Event.Create outputFilepath) (d.Create outputFilepath)
  Eff.ofError ("Failed to create output file at path '" ++ outputFilepath ++ "': ") created
  let encoded ← Eff.call (Event.Encode outputFilepath tfOutput) (d.Encode outputFilepath tfOutput)
  Eff.ofError "Failed to write output file: " encoded
  let metadata : List models.MetadataField := []
  let metadata := (d.SanitizedOutput tfOutput).foldl
    (fun metadata kv => metadata ++ [{ Name := kv.1, Value := kv.2 }]) metadata
  let answer ← Eff.call (Event.Version client) (d.ClientVersion client)
  let tfVersion ← Eff.ofExcept "" answer
  let metadata := metadata ++ [{ Name := "terraform_version", Value := tfVersion }]
  (if req.Params.OutputStatefile then do
    let stateFilePath := d.pathJoin r.OutputDir "terraform.tfstate"
    let answer ← Eff.call (Event.ReadFile terraformModel.StateFileLocalPath)
      (d.ReadFile terraformModel.StateFileLocalPath)
    let stateContents ← Eff.ofExcept "" answer
    let written ← Eff.call (Event.WriteFile stateFilePath stateContents)
      (d.WriteFile stateFilePath stateContents)
    Eff.ofError "" written
  else
    pure ())
  let resp : models.InResponse V := { Version := version, Metadata := metadata }
  pure resp

end «in»

/-! ## A concrete instance

One set of collaborators on which the runners can be evaluated: a bucket is a
`String`, a driver is the storage model it was built from, a storage version is a key
with its modification time. -/

namespace Example

/-- A version: environment name, modification time, plan flag. -/
structure Version where
  EnvName : String
  LastModified : Time
  Plan : Bool
  deriving DecidableEq, Repr

/-- Collaborators: Vault hands out one fixed set of credentials, the backend holds
`prod.tfstate`, modified at time 20, and nothing else. -/
def deps : Deps Version (String × Time) String (storage.Model String)
    (List (String × String)) where
  EnvName := fun v => v.EnvName
  VersionIsZero := fun v => decide (v = { EnvName := "", LastModified := 0, Plan := false })
  VersionValidate := fun v =>
    if v.EnvName = "" then some "Missing fields: 'version.env_name'" else none
  LastModifiedTime := fun v => v.LastModified
  IsPlan := fun v => v.Plan
  NewVersion := fun sv => { EnvName := sv.1, LastModified := sv.2, Plan := false }
  DestroyAction := "destroy"
  TerraformValidate := fun _ => none
  StorageValidate := fun m => if m.Rest = "" then some "Missing fields: 'storage.bucket'" else none
  BuildDriver := fun m => m
  StorageVersionIsZero := fun sv => decide (sv = ("", 0))
  LastModified := fun sv => sv.2
  VaultNewClient := fun _ => none
  VaultWrite := fun _ =>
    Except.ok (some { Data :=
      [("access_key", DataValue.str "AK"), ("secret_key", DataValue.str "SK"),
        ("security_token", DataValue.str "ST")] })
  LatestVersion := fun _ => Except.ok ("prod.tfstate", 20)
  ExistsAsTainted := fun _ => Except.ok false
  ConvertToTainted := fun f => { f with RemotePath := f.RemotePath ++ ".tainted" }
  Exists := fun f => Except.ok (decide (f.RemotePath = "prod.tfstate"))
  Download := fun f => Except.ok (f.RemotePath, 20)
  Output := fun _ => Except.ok [("vpc_id", "vpc-1")]
  ClientVersion := fun _ => Except.ok "0.11.7"
  SanitizedOutput := fun o => o
  pathJoin := fun a b => a ++ "/" ++ b
  osTempDir := "/tmp"
  TempDir := fun dir pre => Except.ok (dir ++ "/" ++ pre ++ "1")
  WriteFile := fun _ _ => none
  ReadFile := fun _ => Except.ok ""
  Create := fun _ => none
  Encode := fun _ _ => none

/-- The same collaborators, with the backend holding only the tainted state file of
`staging`. -/
def taintedDeps : Deps Version (String × Time) String (storage.Model String)
    (List (String × String)) :=
  { deps with
    ExistsAsTainted := fun _ => Except.ok true
    Exists := fun f => Except.ok (decide (f.RemotePath = "staging.tfstate.tainted")) }

/-- The same collaborators, with an empty backend. -/
def emptyDeps : Deps Version (String × Time) String (storage.Model String)
    (List (String × String)) :=
  { deps with
    LatestVersion := fun _ => Except.ok ("", 0)
    Exists := fun _ => Except.ok false }

/-- The same collaborators, with a Vault that answers the write with no secret. -/
def silentVaultDeps : Deps Version (String × Time) String (storage.Model String)
    (List (String × String)) :=
  { deps with VaultWrite := fun _ => Except.ok none }

/-- A complete Vault configuration. -/
def vault : VaultConfiguration :=
  { Address := "https://vault", SecretPath := "aws/sts/deploy", Token := "s.token", TTL := 900 }

/-- A request with the given Vault configuration, bucket, version and action. -/
def request (v : VaultConfiguration) (bucket : String) (version : Version) (action : String) :
    models.InRequest Version String :=
  { Source :=
      { VaultConfiguration := v
        Storage := { AccessKeyID := "", SecretAccessKey := "", SessionToken := "", Rest := bucket }
        Terraform :=
          { StateFileLocalPath := "", StateFileRemotePath := "", Env := none, OutputModule := "" } }
    Version := version
    Params := { Action := action, OutputModule := "", OutputStatefile := false } }

end Example


/-! ## Equations of the effect monad -/

namespace Eff

/-- Running `pure a` returns `a` and leaves the trace as it is. -/
theorem pure_apply {ε α : Type} (a : α) (t : List ε) :
    (pure a : Eff ε α) t = (Outcome.ok a, t) := rfl

/-- Running `fail msg` returns the error and leaves the trace as it is. -/
theorem fail_apply {ε α : Type} (msg : String) (t : List ε) :
    (fail msg : Eff ε α) t = (Outcome.error msg, t) := rfl

/-- The bind of `Eff` is `andThen`. -/
theorem bind_def {ε α β : Type} (m : Eff ε α) (f : α → Eff ε β) :
    m >>= f = andThen m f := rfl

/-- Left identity of the bind. -/
theorem pure_bind_eq {ε α β : Type} (a : α) (f : α → Eff ε β) :
    (pure a : Eff ε α) >>= f = f a := rfl

/-- Associativity of the bind. -/
theorem bind_bind_eq {ε α β γ : Type} (m : Eff ε α) (g : α → Eff ε β) (k : β → Eff ε γ) :
    (m >>= g) >>= k = m >>= fun a => g a >>= k := by
  funext t
  simp only [bind_def, andThen]
  rcases m t with ⟨_ | _ | _, _⟩ <;> rfl

/-- A conditional followed by a continuation is the conditional of the two sequences. -/
theorem ite_bind_eq {ε α β : Type} (c : Prop) [Decidable c] (m n : Eff ε α)
    (k : α → Eff ε β) :
    (if c then m else n) >>= k = if c then m >>= k else n >>= k := by
  split <;> rfl

/-- Running a conditional runs the chosen branch. -/
theorem ite_apply_eq {ε α : Type} (c : Prop) [Decidable c] (m n : Eff ε α) (t : List ε) :
    (if c then m else n) t = if c then m t else n t := by
  split <;> rfl

/-- An external call records its event and hands its answer to the continuation. -/
theorem call_bind_apply {ε α β : Type} (e : ε) (a : α) (f : α → Eff ε β) (t : List ε) :
    (call e a >>= f) t = f a (t ++ [e]) := rfl

/-- An `error` answer ends the run with the formatted message; `nil` continues. -/
theorem ofError_bind_apply {ε β : Type} (what : String) (r : Option String)
    (f : Unit → Eff ε β) (t : List ε) :
    (ofError what r >>= f) t =
      match r with
      | none => f () t
      | some e => (Outcome.error (what ++ e), t) := by
  cases r <;> rfl

/-- A `(T, error)` answer with an error ends the run with the formatted message; a
value continues. -/
theorem ofExcept_bind_apply {ε α β : Type} (what : String) (r : Except String α)
    (f : α → Eff ε β) (t : List ε) :
    (ofExcept what r >>= f) t =
      match r with
      | Except.ok a => f a t
      | Except.error e => (Outcome.error (what ++ e), t) := by
  cases r <;> rfl

/-- The case of a value in `ofExcept_bind_apply`. -/
theorem ofExcept_ok_bind_apply {ε α β : Type} (what : String) (a : α)
    (f : α → Eff ε β) (t : List ε) :
    (ofExcept what (Except.ok a) >>= f) t = f a t := rfl

/-- The case of an error in `ofExcept_bind_apply`. -/
theorem ofExcept_error_bind_apply {ε α β : Type} (what e : String)
    (f : α → Eff ε β) (t : List ε) :
    (ofExcept what (Except.error e : Except String α) >>= f) t
      = (Outcome.error (what ++ e), t) := rfl

/-- As `ofExcept_bind_apply`, for a message that does not mention the error. -/
theorem orFail_bind_apply {ε α β : Type} (msg : String) (r : Except String α)
    (f : α → Eff ε β) (t : List ε) :
    (orFail msg r >>= f) t =
      match r with
      | Except.ok a => f a t
      | Except.error _ => (Outcome.error msg, t) := by
  cases r <;> rfl

/-- A body with a deferred event returns what the body returns, with the event appended
to the trace. -/
theorem deferring_apply {ε α : Type} (e : ε) (body : Eff ε α) (t : List ε) :
    deferring e body t = ((body t).1, (body t).2 ++ [e]) := rfl

/-- What a run that starts with the check of an `error` answer returns. -/
theorem ofError_bind_iff {ε β : Type} (what : String) (r : Option String)
    (f : Unit → Eff ε β) (t : List ε) (res : Outcome β × List ε) :
    (ofError what r >>= f) t = res ↔
      (r = none ∧ f () t = res) ∨ (∃ e, r = some e ∧ (Outcome.error (what ++ e), t) = res) := by
  cases r with
  | none => exact ⟨fun h => Or.inl ⟨rfl, h⟩, fun h => by simpa using h⟩
  | some e => exact ⟨fun h => Or.inr ⟨e, rfl, h⟩, fun h => by simpa using h⟩

/-- What a run that starts with the check of a `(T, error)` answer returns. -/
theorem ofExcept_bind_iff {ε α β : Type} (what : String) (r : Except String α)
    (f : α → Eff ε β) (t : List ε) (res : Outcome β × List ε) :
    (ofExcept what r >>= f) t = res ↔
      (∃ a, r = Except.ok a ∧ f a t = res) ∨
        (∃ e, r = Except.error e ∧ (Outcome.error (what ++ e), t) = res) := by
  cases r with
  | ok a => exact ⟨fun h => Or.inl ⟨a, rfl, h⟩, fun h => by simpa using h⟩
  | error e => exact ⟨fun h => Or.inr ⟨e, rfl, h⟩, fun h => by simpa using h⟩

/-- What a run that starts with the check of a `(T, error)` answer returns, when the
message does not mention the error. -/
theorem orFail_bind_iff {ε α β : Type} (msg : String) (r : Except String α)
    (f : α → Eff ε β) (t : List ε) (res : Outcome β × List ε) :
    (orFail msg r >>= f) t = res ↔
      (∃ a, r = Except.ok a ∧ f a t = res) ∨
        (∃ e, r = Except.error e ∧ (Outcome.error msg, t) = res) := by
  cases r with
  | ok a => exact ⟨fun h => Or.inl ⟨a, rfl, h⟩, fun h => by simpa using h⟩
  | error e => exact ⟨fun h => Or.inr ⟨e, rfl, h⟩, fun h => by simpa using h⟩

/-- What a conditional returns. -/
theorem ite_iff {ε α : Type} (c : Prop) [Decidable c] (m n : Eff ε α) (t : List ε)
    (res : Outcome α × List ε) :
    (if c then m else n) t = res ↔ (c ∧ m t = res) ∨ (¬c ∧ n t = res) := by
  by_cases hc : c <;> simp [hc]

/-- What a conditional followed by a continuation returns. -/
theorem ite_bind_iff {ε α β : Type} (c : Prop) [Decidable c] (m n : Eff ε α)
    (k : α → Eff ε β) (t : List ε) (res : Outcome β × List ε) :
    ((if c then m else n) >>= k) t = res ↔
      (c ∧ (m >>= k) t = res) ∨ (¬c ∧ (n >>= k) t = res) := by
  by_cases hc : c <;> simp [hc]

/-- What a body with a deferred event returns. -/
theorem deferring_iff {ε α : Type} (e : ε) (body : Eff ε α) (t : List ε)
    (out : Outcome α) (tr : List ε) :
    deferring e body t = (out, tr) ↔ ∃ tr1, body t = (out, tr1) ∧ tr = tr1 ++ [e] := by
  constructor
  · intro h
    refine ⟨(body t).2, ?_, ?_⟩
    · have h1 : (body t).1 = out := congrArg Prod.fst h
      rw [← h1]
    · exact (congrArg Prod.snd h).symm
  · rintro ⟨tr1, h1, h2⟩
    show ((body t).1, (body t).2 ++ [e]) = (out, tr)
    rw [h1, h2]

end Eff

/-! ## The request to Vault -/

/-- `GetAwsCredentials` adds its own calls to the trace it is given and ends as it does
from the empty trace. -/
theorem getAwsCredentials_apply {V SV ρ D O : Type} (d : Deps V SV ρ D O)
    (v : VaultConfiguration) (t : List (Event ρ D O)) :
    GetAwsCredentials d v t =
      ((GetAwsCredentials d v).exec.1, t ++ (GetAwsCredentials d v).exec.2) := by
  simp only [GetAwsCredentials, Eff.exec, Eff.bind_bind_eq, Eff.call_bind_apply,
    Eff.ofError_bind_apply, Eff.ofExcept_bind_apply]
  cases d.VaultNewClient v.Address with
  | some e => simp
  | none =>
    cases d.VaultWrite v with
    | error e => simp
    | ok p =>
      cases p with
      | none => simp [Eff.deref, Eff.crash, Eff.bind_def, Eff.andThen]
      | some secret =>
        simp only [Eff.deref, Eff.bind_def, Eff.andThen, Eff.ret, Eff.assertString]
        rcases secret.Data.lookup "access_key" with _ | (_ | _) <;>
        rcases secret.Data.lookup "secret_key" with _ | (_ | _) <;>
        rcases secret.Data.lookup "security_token" with _ | (_ | _) <;>
        simp [pure, Eff.ret, Eff.crash, Eff.andThen, Eff.bind_def]

/-- The calls of `GetAwsCredentials`: the creation of the client, then, if it succeeded,
the write. -/
theorem getAwsCredentials_trace {V SV ρ D O : Type} (d : Deps V SV ρ D O)
    (v : VaultConfiguration) :
    (GetAwsCredentials d v : Eff (Event ρ D O) AwsCredentials).exec.2
        = [Event.VaultNewClient v.Address] ∨
      (GetAwsCredentials d v : Eff (Event ρ D O) AwsCredentials).exec.2
        = [Event.VaultNewClient v.Address, Event.VaultWrite v] := by
  simp only [GetAwsCredentials, Eff.exec, Eff.bind_bind_eq, Eff.call_bind_apply,
    Eff.ofError_bind_apply, Eff.ofExcept_bind_apply]
  cases d.VaultNewClient v.Address with
  | some e => simp
  | none =>
    cases d.VaultWrite v with
    | error e => simp
    | ok p =>
      cases p with
      | none => simp [Eff.deref, Eff.crash, Eff.bind_def, Eff.andThen]
      | some secret =>
        simp only [Eff.deref, Eff.bind_def, Eff.andThen, Eff.ret, Eff.assertString]
        rcases secret.Data.lookup "access_key" with _ | (_ | _) <;>
        rcases secret.Data.lookup "secret_key" with _ | (_ | _) <;>
        rcases secret.Data.lookup "security_token" with _ | (_ | _) <;>
        simp [pure, Eff.ret, Eff.crash, Eff.andThen, Eff.bind_def]

/-- Every call of `GetAwsCredentials` is a call to Vault. -/
theorem getAwsCredentials_calls {V SV ρ D O : Type} (d : Deps V SV ρ D O)
    (v : VaultConfiguration) (e : Event ρ D O)
    (he : e ∈ (GetAwsCredentials d v : Eff (Event ρ D O) AwsCredentials).exec.2) :
    e = Event.VaultNewClient v.Address ∨ e = Event.VaultWrite v := by
  rcases getAwsCredentials_trace d v with h | h <;> rw [h] at he <;> simp at he
  · exact Or.inl he
  · exact he

/-- What a run that starts with a call of `GetAwsCredentials` and the test of its error
does: a panic of the callee ends the run, an error ends it with the formatted message,
and credentials are handed to the continuation. -/
theorem attempt_getAwsCredentials_bind_apply {V SV ρ D O β : Type} (d : Deps V SV ρ D O)
    (v : VaultConfiguration) (what : String)
    (f : AwsCredentials → Eff (Event ρ D O) β) (t : List (Event ρ D O)) :
    (Eff.attempt (GetAwsCredentials d v) >>= fun answer => Eff.ofExcept what answer >>= f) t =
      match (GetAwsCredentials d v : Eff (Event ρ D O) AwsCredentials).exec.1 with
      | Outcome.ok c => f c (t ++ (GetAwsCredentials d v).exec.2)
      | Outcome.error e => (Outcome.error (what ++ e), t ++ (GetAwsCredentials d v).exec.2)
      | Outcome.panic => (Outcome.panic, t ++ (GetAwsCredentials d v).exec.2) := by
  show Eff.andThen (Eff.attempt (GetAwsCredentials d v)) _ t = _
  simp only [Eff.andThen, Eff.attempt]
  rw [getAwsCredentials_apply]
  rcases (GetAwsCredentials d v : Eff (Event ρ D O) AwsCredentials).exec.1 with c | e | _ <;> rfl

/-- The three ways in which a run that starts with a call of `GetAwsCredentials` and the
test of its error can end. -/
theorem attempt_getAwsCredentials_bind_iff {V SV ρ D O β : Type} (d : Deps V SV ρ D O)
    (v : VaultConfiguration) (what : String)
    (f : AwsCredentials → Eff (Event ρ D O) β) (t : List (Event ρ D O))
    (res : Outcome β × List (Event ρ D O)) :
    (Eff.attempt (GetAwsCredentials d v) >>= fun answer => Eff.ofExcept what answer >>= f) t
        = res ↔
      (∃ c, (GetAwsCredentials d v : Eff (Event ρ D O) AwsCredentials).exec.1 = Outcome.ok c ∧
        f c (t ++ (GetAwsCredentials d v).exec.2) = res) ∨
      (∃ e, (GetAwsCredentials d v : Eff (Event ρ D O) AwsCredentials).exec.1
          = Outcome.error e ∧
        (Outcome.error (what ++ e), t ++ (GetAwsCredentials d v).exec.2) = res) ∨
      ((GetAwsCredentials d v : Eff (Event ρ D O) AwsCredentials).exec.1 = Outcome.panic ∧
        (Outcome.panic, t ++ (GetAwsCredentials d v).exec.2) = res) := by
  rw [attempt_getAwsCredentials_bind_apply]
  rcases (GetAwsCredentials d v : Eff (Event ρ D O) AwsCredentials).exec.1 with c | e | _ <;> simp

/-! ## Lists of events -/

/-- A trace splits at its last event. -/
theorem exists_split_here {ε : Type} (P : List ε → Prop) (l : List ε) (x : ε) (h : P l) :
    ∃ pre post, l ++ [x] = pre ++ x :: post ∧ P pre :=
  ⟨l, [], rfl, h⟩

/-- A split of a trace is a split of the trace with one more event. -/
theorem exists_split_snoc {ε : Type} (P : List ε → Prop) (l : List ε) (x y : ε)
    (h : ∃ pre post, l = pre ++ x :: post ∧ P pre) :
    ∃ pre post, l ++ [y] = pre ++ x :: post ∧ P pre := by
  obtain ⟨pre, post, h1, h2⟩ := h
  exact ⟨pre, post ++ [y], by rw [h1]; simp, h2⟩

/-- Every call of `GetAwsCredentials` is a call to Vault: none builds a storage driver. -/
theorem getAwsCredentials_no_buildDriver {V SV ρ D O : Type} (d : Deps V SV ρ D O)
    (v : VaultConfiguration) (m : storage.Model ρ) :
    (Event.BuildDriver m ∈ (GetAwsCredentials d v : Eff (Event ρ D O) AwsCredentials).exec.2)
      ↔ False :=
  ⟨fun h => (getAwsCredentials_calls d v _ h).elim (fun h => by cases h) (fun h => by cases h),
    False.elim⟩

/-- No call of `GetAwsCredentials` asks the backend for the latest version. -/
theorem getAwsCredentials_no_latestVersion {V SV ρ D O : Type} (d : Deps V SV ρ D O)
    (v : VaultConfiguration) (f : terraform.StateFile D) :
    (Event.LatestVersion f ∈ (GetAwsCredentials d v : Eff (Event ρ D O) AwsCredentials).exec.2)
      ↔ False :=
  ⟨fun h => (getAwsCredentials_calls d v _ h).elim (fun h => by cases h) (fun h => by cases h),
    False.elim⟩

/-- No call of `GetAwsCredentials` is a tainted probe. -/
theorem getAwsCredentials_no_existsAsTainted {V SV ρ D O : Type} (d : Deps V SV ρ D O)
    (v : VaultConfiguration) (f : terraform.StateFile D) :
    (Event.ExistsAsTainted f ∈
      (GetAwsCredentials d v : Eff (Event ρ D O) AwsCredentials).exec.2) ↔ False :=
  ⟨fun h => (getAwsCredentials_calls d v _ h).elim (fun h => by cases h) (fun h => by cases h),
    False.elim⟩

/-- No call of `GetAwsCredentials` is an existence probe. -/
theorem getAwsCredentials_no_exists {V SV ρ D O : Type} (d : Deps V SV ρ D O)
    (v : VaultConfiguration) (f : terraform.StateFile D) :
    (Event.Exists f ∈ (GetAwsCredentials d v : Eff (Event ρ D O) AwsCredentials).exec.2)
      ↔ False :=
  ⟨fun h => (getAwsCredentials_calls d v _ h).elim (fun h => by cases h) (fun h => by cases h),
    False.elim⟩

/-- No call of `GetAwsCredentials` is a download. -/
theorem getAwsCredentials_no_download {V SV ρ D O : Type} (d : Deps V SV ρ D O)
    (v : VaultConfiguration) (f : terraform.StateFile D) :
    (Event.Download f ∈ (GetAwsCredentials d v : Eff (Event ρ D O) AwsCredentials).exec.2)
      ↔ False :=
  ⟨fun h => (getAwsCredentials_calls d v _ h).elim (fun h => by cases h) (fun h => by cases h),
    False.elim⟩

/-- No call of `GetAwsCredentials` reads the Terraform output. -/
theorem getAwsCredentials_no_output {V SV ρ D O : Type} (d : Deps V SV ρ D O)
    (v : VaultConfiguration) (c : terraform.Client D) :
    (Event.Output c ∈ (GetAwsCredentials d v : Eff (Event ρ D O) AwsCredentials).exec.2)
      ↔ False :=
  ⟨fun h => (getAwsCredentials_calls d v _ h).elim (fun h => by cases h) (fun h => by cases h),
    False.elim⟩

/-- No call of `GetAwsCredentials` asks for the Terraform version. -/
theorem getAwsCredentials_no_version {V SV ρ D O : Type} (d : Deps V SV ρ D O)
    (v : VaultConfiguration) (c : terraform.Client D) :
    (Event.Version c ∈ (GetAwsCredentials d v : Eff (Event ρ D O) AwsCredentials).exec.2)
      ↔ False :=
  ⟨fun h => (getAwsCredentials_calls d v _ h).elim (fun h => by cases h) (fun h => by cases h),
    False.elim⟩

/-- What a run that starts with a call of `GetAwsCredentials` does, whatever the caller
does with the answer: a panic of the callee ends the run, and an error or credentials
are handed to the continuation. -/
theorem attempt_getAwsCredentials_then_iff {V SV ρ D O β : Type} (d : Deps V SV ρ D O)
    (v : VaultConfiguration) (k : Except String AwsCredentials → Eff (Event ρ D O) β)
    (t : List (Event ρ D O)) (res : Outcome β × List (Event ρ D O)) :
    (Eff.attempt (GetAwsCredentials d v) >>= k) t = res ↔
      (∃ c, (GetAwsCredentials d v : Eff (Event ρ D O) AwsCredentials).exec.1 = Outcome.ok c ∧
        k (Except.ok c) (t ++ (GetAwsCredentials d v).exec.2) = res) ∨
      (∃ e, (GetAwsCredentials d v : Eff (Event ρ D O) AwsCredentials).exec.1
          = Outcome.error e ∧
        k (Except.error e) (t ++ (GetAwsCredentials d v).exec.2) = res) ∨
      ((GetAwsCredentials d v : Eff (Event ρ D O) AwsCredentials).exec.1 = Outcome.panic ∧
        (Outcome.panic, t ++ (GetAwsCredentials d v).exec.2) = res) := by
  show Eff.andThen (Eff.attempt (GetAwsCredentials d v)) k t = res ↔ _
  simp only [Eff.andThen, Eff.attempt]
  rw [getAwsCredentials_apply]
  rcases (GetAwsCredentials d v : Eff (Event ρ D O) AwsCredentials).exec.1 with c | e | _ <;> simp

/-- A run that starts with a call of `GetAwsCredentials` that returns credentials goes
on with them, after the calls to Vault. -/
theorem attempt_getAwsCredentials_ok_then_apply {V SV ρ D O β : Type} (d : Deps V SV ρ D O)
    (v : VaultConfiguration) (c : AwsCredentials)
    (hc : (GetAwsCredentials d v : Eff (Event ρ D O) AwsCredentials).exec.1 = Outcome.ok c)
    (k : Except String AwsCredentials → Eff (Event ρ D O) β) (t : List (Event ρ D O)) :
    (Eff.attempt (GetAwsCredentials d v) >>= k) t
      = k (Except.ok c) (t ++ (GetAwsCredentials d v).exec.2) := by
  show Eff.andThen (Eff.attempt (GetAwsCredentials d v)) k t = _
  simp only [Eff.andThen, Eff.attempt]
  rw [getAwsCredentials_apply, hc]

/-- A `nil` error lets the run go on. -/
theorem Eff.ofError_none_bind_apply {ε β : Type} (what : String)
    (f : Unit → Eff ε β) (t : List ε) :
    (Eff.ofError what none >>= f) t = f () t := rfl

/-- A value lets the run go on, for a message that does not mention the error. -/
theorem Eff.orFail_ok_bind_apply {ε α β : Type} (msg : String) (a : α)
    (f : α → Eff ε β) (t : List ε) :
    (Eff.orFail msg (Except.ok a) >>= f) t = f a t := rfl

/-! ## Vault configuration -/

/-- `VaultConfiguration.Validate` accepts exactly the configurations in which the address,
the secret path and the token are non-empty and the TTL is not zero. -/
theorem vault_validate_none_iff (m : VaultConfiguration) :
    m.Validate = none ↔ m.Address ≠ "" ∧ m.SecretPath ≠ "" ∧ m.Token ≠ "" ∧ m.TTL ≠ 0 := by
  unfold VaultConfiguration.Validate VaultConfiguration.missingFields
  by_cases h1 : m.Address = "" <;> by_cases h2 : m.SecretPath = "" <;>
    by_cases h3 : m.Token = "" <;> by_cases h4 : m.TTL = 0 <;> simp [h1, h2, h3, h4]

/-- C9: for a Vault configuration whose only missing field is the TTL, `Validate` returns
the message `Missing fields: '%!d(string=VaultConfig).ttl'`: the field is formatted with
the verb `%d` applied to the string prefix, so the message is not the
`Missing fields: 'VaultConfig.ttl'` that the other three fields' pattern gives. -/
theorem vault_validate_ttl_message :
    VaultConfiguration.Validate
        { Address := "https://vault", SecretPath := "aws/sts/deploy", Token := "s.token",
          TTL := 0 }
      = some "Missing fields: '%!d(string=VaultConfig).ttl'" ∧
    VaultConfiguration.Validate
        { Address := "https://vault", SecretPath := "aws/sts/deploy", Token := "s.token",
          TTL := 0 }
      ≠ some "Missing fields: 'VaultConfig.ttl'" := by
  constructor <;> decide

/-! ## The check flow -/

/-- C1: let the prior version be the zero value or pass `Validate()`, let the Vault
configuration be empty, or pass `Validate()` with `GetAwsCredentials` returning
credentials, let the storage configuration (the request's one, with the fetched
credentials written into it if there are any) pass `Validate()`, and let
`LatestVersion()` on the state file of the driver built from it return the storage
version `sv`. Then `check.Runner.Run` makes that call and succeeds, and the returned list
is non-empty exactly when `sv` is not the zero version and its `LastModified` is strictly
after the baseline: the zero time when the prior version is the zero value, its
`LastModifiedTime()` otherwise. In particular a zero `sv` and an `sv` modified at the
baseline or before it give the empty list. -/
theorem check_emits_iff_latest_strictly_newer {V SV ρ D O : Type} (r : check.Runner)
    (d : Deps V SV ρ D O) (req : models.InRequest V ρ) (storageModel : storage.Model ρ)
    (sv : SV)
    (hversion : d.VersionIsZero req.Version = false → d.VersionValidate req.Version = none)
    (hmodel :
      (req.Source.VaultConfiguration = VaultConfiguration.zero ∧
        storageModel = req.Source.Storage) ∨
      (req.Source.VaultConfiguration ≠ VaultConfiguration.zero ∧
        req.Source.VaultConfiguration.Validate = none ∧
        ∃ c, (GetAwsCredentials d req.Source.VaultConfiguration :
            Eff (Event ρ D O) AwsCredentials).exec.1 = Outcome.ok c ∧
          storageModel =
            { req.Source.Storage with
              AccessKeyID := c.AccessKeyID
              SecretAccessKey := c.SecretAccessKey
              SessionToken := c.SessionToken }))
    (hstorage : d.StorageValidate storageModel = none)
    (hlatest : d.LatestVersion
      { LocalPath := "", RemotePath := "", StorageDriver := d.BuildDriver storageModel }
        = Except.ok sv) :
    Event.LatestVersion
        { LocalPath := "", RemotePath := "", StorageDriver := d.BuildDriver storageModel }
      ∈ (r.Run d req).exec.2 ∧
    ∃ versions, (r.Run d req).exec.1 = Outcome.ok versions ∧
      (versions ≠ [] ↔ d.StorageVersionIsZero sv = false ∧
        (if d.VersionIsZero req.Version then 0 else d.LastModifiedTime req.Version)
          < d.LastModified sv) ∧
      (d.StorageVersionIsZero sv = true → versions = []) ∧
      (d.LastModified sv
          ≤ (if d.VersionIsZero req.Version then 0 else d.LastModifiedTime req.Version) →
        versions = []) := by
  generalize hres : (r.Run d req).exec = res
  simp only [check.Runner.Run, Eff.exec] at hres
  simp only [Eff.bind_bind_eq, Eff.ite_bind_eq, Eff.pure_bind_eq,
    Eff.ite_apply_eq, Eff.call_bind_apply, Eff.ofError_bind_apply,
    attempt_getAwsCredentials_bind_apply, Eff.ofExcept_bind_apply,
    Eff.pure_apply, Eff.fail_apply] at hres
  rcases hmodel with ⟨hz, rfl⟩ | ⟨hne, hv, c, hc, rfl⟩
  all_goals repeat' split at hres
  all_goals subst hres
  all_goals simp_all [Time.After, getAwsCredentials_no_latestVersion]

/-- C2: a list returned by `check.Runner.Run` has at most one element; `LatestVersion()`
was called and returned a storage version, and the element, if any, is `models.NewVersion`
of that storage version. -/
theorem check_emits_at_most_the_latest {V SV ρ D O : Type} (r : check.Runner)
    (d : Deps V SV ρ D O) (req : models.InRequest V ρ) (versions : List V)
    (hok : (r.Run d req).exec.1 = Outcome.ok versions) :
    versions.length ≤ 1 ∧
      ∃ f sv, Event.LatestVersion f ∈ (r.Run d req).exec.2 ∧ d.LatestVersion f = Except.ok sv ∧
        (versions = [] ∨ versions = [d.NewVersion sv]) := by
  generalize hres : (r.Run d req).exec = res at hok ⊢
  simp only [check.Runner.Run, Eff.exec] at hres
  simp only [Eff.bind_bind_eq, Eff.ite_bind_eq, Eff.pure_bind_eq,
    Eff.ite_apply_eq, Eff.call_bind_apply, Eff.ofError_bind_apply,
    attempt_getAwsCredentials_bind_apply, Eff.ofExcept_bind_apply,
    Eff.pure_apply, Eff.fail_apply] at hres
  repeat' split at hres
  all_goals subst hres
  all_goals simp at hok
  all_goals subst hok
  all_goals exact ⟨by simp, _, _, by simp [getAwsCredentials_no_latestVersion]; rfl,
    ‹d.LatestVersion _ = Except.ok _›, by simp⟩

/-- C3: a prior version that is not the zero value and fails `Validate()` makes
`check.Runner.Run` return the validation error, with no external call made. -/
theorem check_malformed_version_is_fatal {V SV ρ D O : Type} (r : check.Runner)
    (d : Deps V SV ρ D O) (req : models.InRequest V ρ) (err : String)
    (hzero : d.VersionIsZero req.Version = false)
    (hbad : d.VersionValidate req.Version = some err) :
    (r.Run d req).exec =
      (Outcome.error ("Failed to validate provided version: " ++ err), []) := by
  simp only [check.Runner.Run, Eff.exec]
  simp only [Eff.bind_bind_eq, Eff.ite_bind_eq, Eff.pure_bind_eq,
    Eff.ite_apply_eq, Eff.call_bind_apply, Eff.ofError_bind_apply,
    attempt_getAwsCredentials_bind_apply, Eff.ofExcept_bind_apply,
    Eff.pure_apply, Eff.fail_apply]
  simp [hzero, hbad]

/-- C4, as amended: when the storage configuration that `check.Runner.Run` validates (the
request's one if the Vault configuration is empty, otherwise the request's one with the
credentials that `GetAwsCredentials` returns written into it) fails `Validate()`, the run
returns no list: it returns an error, or it panics where `GetAwsCredentials` panics. No
storage driver is built and `LatestVersion()` is not called; the only external calls of
the run are those of `GetAwsCredentials` (the creation of the Vault client and the
write), made only for a non-empty Vault configuration that passes `Validate()`. -/
theorem check_invalid_storage_is_fatal {V SV ρ D O : Type} (r : check.Runner)
    (d : Deps V SV ρ D O) (req : models.InRequest V ρ)
    (hplain : req.Source.VaultConfiguration = VaultConfiguration.zero →
      d.StorageValidate req.Source.Storage ≠ none)
    (hvault : req.Source.VaultConfiguration ≠ VaultConfiguration.zero →
      ∀ c, (GetAwsCredentials d req.Source.VaultConfiguration :
          Eff (Event ρ D O) AwsCredentials).exec.1 = Outcome.ok c →
        d.StorageValidate
          { req.Source.Storage with
            AccessKeyID := c.AccessKeyID
            SecretAccessKey := c.SecretAccessKey
            SessionToken := c.SessionToken } ≠ none) :
    ((∃ e, (r.Run d req).exec.1 = Outcome.error e) ∨
      ((r.Run d req).exec.1 = Outcome.panic ∧
        (GetAwsCredentials d req.Source.VaultConfiguration :
          Eff (Event ρ D O) AwsCredentials).exec.1 = Outcome.panic)) ∧
    (∀ m, Event.BuildDriver m ∉ (r.Run d req).exec.2) ∧
    (∀ f, Event.LatestVersion f ∉ (r.Run d req).exec.2) ∧
    ((r.Run d req).exec.2 = [] ∨
      (req.Source.VaultConfiguration ≠ VaultConfiguration.zero ∧
        req.Source.VaultConfiguration.Validate = none ∧
        (r.Run d req).exec.2 =
          (GetAwsCredentials d req.Source.VaultConfiguration :
            Eff (Event ρ D O) AwsCredentials).exec.2 ∧
        ((r.Run d req).exec.2 = [Event.VaultNewClient req.Source.VaultConfiguration.Address] ∨
          (r.Run d req).exec.2 =
            [Event.VaultNewClient req.Source.VaultConfiguration.Address,
              Event.VaultWrite req.Source.VaultConfiguration]))) := by
  have htrace := getAwsCredentials_trace d req.Source.VaultConfiguration
  generalize hres : (r.Run d req).exec = res
  simp only [check.Runner.Run, Eff.exec] at hres
  simp only [Eff.bind_bind_eq, Eff.ite_bind_eq, Eff.pure_bind_eq,
    Eff.ite_apply_eq, Eff.call_bind_apply, Eff.ofError_bind_apply,
    attempt_getAwsCredentials_bind_apply, Eff.ofExcept_bind_apply,
    Eff.pure_apply, Eff.fail_apply] at hres
  repeat' split at hres
  all_goals subst hres
  all_goals simp_all [getAwsCredentials_no_buildDriver, getAwsCredentials_no_latestVersion]

/-! ## The fetch flow

The proofs walk the paths of `in.Runner.Run` one call at a time: `hres` states what the
rest of the run returns, and each step consumes its first call. -/

/-- C5, as amended: for a request whose action is not the destroy action, a non-empty
Vault configuration that fails `Validate()`, or a storage configuration that fails
`Validate()` as `in.Runner.Run` validates it (the request's one if the Vault configuration
is empty, otherwise the request's one with the credentials that `GetAwsCredentials`
returns written into it), makes the run return no response: it returns an error, or it
panics where `GetAwsCredentials` panics, which only a non-empty Vault configuration that
passes `Validate()` allows. -/
theorem fetch_invalid_configuration_is_fatal {V SV ρ D O : Type} (r : «in».Runner)
    (d : Deps V SV ρ D O) (req : models.InRequest V ρ)
    (haction : req.Params.Action ≠ d.DestroyAction)
    (hbad :
      (req.Source.VaultConfiguration ≠ VaultConfiguration.zero ∧
        req.Source.VaultConfiguration.Validate ≠ none) ∨
      ((req.Source.VaultConfiguration = VaultConfiguration.zero →
          d.StorageValidate req.Source.Storage ≠ none) ∧
        (req.Source.VaultConfiguration ≠ VaultConfiguration.zero →
          ∀ c, (GetAwsCredentials d req.Source.VaultConfiguration :
              Eff (Event ρ D O) AwsCredentials).exec.1 = Outcome.ok c →
            d.StorageValidate
              { req.Source.Storage with
                AccessKeyID := c.AccessKeyID
                SecretAccessKey := c.SecretAccessKey
                SessionToken := c.SessionToken } ≠ none))) :
    (∃ e, (r.Run d req).exec.1 = Outcome.error e) ∨
      ((r.Run d req).exec.1 = Outcome.panic ∧
        req.Source.VaultConfiguration ≠ VaultConfiguration.zero ∧
        req.Source.VaultConfiguration.Validate = none ∧
        (GetAwsCredentials d req.Source.VaultConfiguration :
          Eff (Event ρ D O) AwsCredentials).exec.1 = Outcome.panic) := by
  have hplain : ¬req.Source.VaultConfiguration ≠ VaultConfiguration.zero →
      d.StorageValidate req.Source.Storage = none → False := by
    intro hz hs
    rcases hbad with ⟨hne, _⟩ | ⟨h0, _⟩
    · exact hz hne
    · exact h0 (not_not.mp hz) hs
  have hvault : req.Source.VaultConfiguration ≠ VaultConfiguration.zero →
      req.Source.VaultConfiguration.Validate = none →
      ∀ c, (GetAwsCredentials d req.Source.VaultConfiguration :
          Eff (Event ρ D O) AwsCredentials).exec.1 = Outcome.ok c →
        d.StorageValidate
          { req.Source.Storage with
            AccessKeyID := c.AccessKeyID
            SecretAccessKey := c.SecretAccessKey
            SessionToken := c.SessionToken } = none → False := by
    intro hne hv c hc hs
    rcases hbad with ⟨_, hbadv⟩ | ⟨_, h1⟩
    · exact hbadv hv
    · exact h1 hne c hc hs
  clear hbad
  generalize hres : (r.Run d req).exec = res
  obtain ⟨out, tr⟩ := res
  simp only [«in».Runner.Run, Eff.exec] at hres
  repeat' first
    | exact absurd ‹req.Params.Action = d.DestroyAction› haction
    | exact (hplain ‹_› ‹_›).elim
    | exact (hvault ‹_› ‹_› _ ‹_› ‹_›).elim
    | (rw [Eff.deferring_iff] at hres; obtain ⟨tr1, hres, rfl⟩ := hres)
    | (rw [Eff.call_bind_apply] at hres; try dsimp only at hres)
    | (rw [attempt_getAwsCredentials_then_iff] at hres
       obtain ⟨_, _, hres⟩ | ⟨_, _, hres⟩ | ⟨_, hres⟩ := hres <;> try dsimp only at hres)
    | (rw [Eff.ofExcept_ok_bind_apply] at hres; try dsimp only at hres)
    | rw [Eff.ofExcept_error_bind_apply] at hres
    | (rw [Eff.ofError_bind_iff] at hres
       obtain ⟨_, hres⟩ | ⟨_, _, hres⟩ := hres <;> try dsimp only at hres)
    | (rw [Eff.orFail_bind_iff] at hres
       obtain ⟨_, _, hres⟩ | ⟨_, _, hres⟩ := hres <;> try dsimp only at hres)
    | (rw [Eff.ite_bind_iff] at hres; obtain ⟨_, hres⟩ | ⟨_, hres⟩ := hres)
    | (rw [Eff.ite_iff] at hres; obtain ⟨_, hres⟩ | ⟨_, hres⟩ := hres)
    | rw [Eff.bind_bind_eq] at hres
    | (rw [Eff.pure_bind_eq] at hres; try dsimp only at hres)
    | rw [Eff.pure_apply] at hres
    | rw [Eff.fail_apply] at hres
    | (rw [Prod.mk.injEq] at hres; obtain ⟨h1, h2⟩ := hres; subst h1 h2)
  all_goals first
    | exact Or.inl ⟨_, rfl⟩
    | exact Or.inr ⟨rfl, ‹_›, ‹_›, ‹_›⟩

/-- C6: a destroy request whose version passes `Validate()` and whose name file is
written returns the requested version with empty metadata, and the only external call of
the run is the write of the name file: no temporary directory, no Vault request, no
storage driver, no probe and no download. -/
theorem fetch_destroy_returns_version_only {V SV ρ D O : Type} (r : «in».Runner)
    (d : Deps V SV ρ D O) (req : models.InRequest V ρ)
    (hvalid : d.VersionValidate req.Version = none)
    (hwrite : d.WriteFile (d.pathJoin r.OutputDir "name") (d.EnvName req.Version) = none)
    (haction : req.Params.Action = d.DestroyAction) :
    (r.Run d req).exec =
      (Outcome.ok { Version := req.Version, Metadata := [] },
        [Event.WriteFile (d.pathJoin r.OutputDir "name") (d.EnvName req.Version)]) := by
  simp only [«in».Runner.Run, Eff.exec]
  rw [Eff.ofError_bind_apply, hvalid]
  try dsimp only
  rw [Eff.call_bind_apply]
  try dsimp only
  rw [Eff.ofError_bind_apply, hwrite]
  try dsimp only
  rw [Eff.ite_apply_eq, if_pos haction]
  rfl

/-- C7: take a request whose version passes `Validate()`, whose name file is written,
whose action is not the destroy action, whose temporary directory `tmpDir` is created,
whose Vault configuration is empty, or passes `Validate()` with `GetAwsCredentials`
returning credentials, and whose storage configuration `storageModel` (the request's
one, with the fetched credentials written into it if there are any) passes `Validate()`.
Let `f0` be the state file with key `<EnvName>.tfstate` on the driver built from
`storageModel`, let the tainted probe on `f0` answer `b`, let `w` be `ConvertToTainted f0`
for `b = true` and `f0` otherwise, and let the existence probe on `w` answer `false`.
Then the run makes the existence probe on `w`, and it succeeds exactly when the requested
version is a plan version; it then returns the requested version with empty metadata and
downloads nothing; otherwise it returns the error message that names `w.RemotePath`. -/
theorem fetch_absent_state_file {V SV ρ D O : Type} (r : «in».Runner)
    (d : Deps V SV ρ D O) (req : models.InRequest V ρ) (tmpDir : String)
    (storageModel : storage.Model ρ) (f0 w : terraform.StateFile D) (b : Bool)
    (hvalid : d.VersionValidate req.Version = none)
    (hwrite : d.WriteFile (d.pathJoin r.OutputDir "name") (d.EnvName req.Version) = none)
    (haction : req.Params.Action ≠ d.DestroyAction)
    (htmp : d.TempDir d.osTempDir "terraform-resource-in" = Except.ok tmpDir)
    (hmodel :
      (req.Source.VaultConfiguration = VaultConfiguration.zero ∧
        storageModel = req.Source.Storage) ∨
      (req.Source.VaultConfiguration ≠ VaultConfiguration.zero ∧
        req.Source.VaultConfiguration.Validate = none ∧
        ∃ c, (GetAwsCredentials d req.Source.VaultConfiguration :
            Eff (Event ρ D O) AwsCredentials).exec.1 = Outcome.ok c ∧
          storageModel =
            { req.Source.Storage with
              AccessKeyID := c.AccessKeyID
              SecretAccessKey := c.SecretAccessKey
              SessionToken := c.SessionToken }))
    (hstorage : d.StorageValidate storageModel = none)
    (hf0 : f0 =
      { LocalPath := d.pathJoin tmpDir "terraform.tfstate"
        RemotePath := d.EnvName req.Version ++ ".tfstate"
        StorageDriver := d.BuildDriver storageModel })
    (htainted : d.ExistsAsTainted f0 = Except.ok b)
    (hw : w = if b then d.ConvertToTainted f0 else f0)
    (habsent : d.Exists w = Except.ok false) :
    Event.Exists w ∈ (r.Run d req).exec.2 ∧
    ((∃ resp, (r.Run d req).exec.1 = Outcome.ok resp) ↔ d.IsPlan req.Version = true) ∧
    (d.IsPlan req.Version = true →
      (r.Run d req).exec.1 = Outcome.ok { Version := req.Version, Metadata := [] } ∧
      ∀ g, Event.Download g ∉ (r.Run d req).exec.2) ∧
    (d.IsPlan req.Version = false →
      (r.Run d req).exec.1 = Outcome.error
        ("State file does not exist with key '" ++ w.RemotePath ++ "'."
          ++ "\nIf you intended to run the `destroy` action, add `put.get_params.action: destroy`."
          ++ "\nThis is a temporary requirement until Concourse supports a `delete` step.")) := by
  subst hw
  subst hf0
  generalize hres : (r.Run d req).exec = res
  obtain ⟨out, tr⟩ := res
  simp only [«in».Runner.Run, Eff.exec] at hres
  rcases hmodel with ⟨hz, rfl⟩ | ⟨hne, hv, c, hc, rfl⟩
  all_goals repeat' first
    | rw [hvalid] at hres
    | rw [hwrite] at hres
    | rw [htmp] at hres
    | rw [hstorage] at hres
    | rw [htainted] at hres
    | rw [habsent] at hres
    | exact absurd rfl ‹¬(!false) = true›
    | rw [if_neg haction] at hres
    | rw [if_pos (rfl : (!false) = true)] at hres
    | rw [if_neg (not_not.mpr ‹req.Source.VaultConfiguration = VaultConfiguration.zero›)] at hres
    | rw [if_pos ‹req.Source.VaultConfiguration ≠ VaultConfiguration.zero›] at hres
    | rw [‹req.Source.VaultConfiguration.Validate = none›] at hres
    | (rw [Eff.ofError_none_bind_apply] at hres; try dsimp only at hres)
    | (rw [Eff.orFail_ok_bind_apply] at hres; try dsimp only at hres)
    | (rw [attempt_getAwsCredentials_ok_then_apply _ _ _ ‹_›] at hres; try dsimp only at hres)
    | (rw [Eff.deferring_iff] at hres; obtain ⟨tr1, hres, rfl⟩ := hres)
    | (rw [Eff.call_bind_apply] at hres; try dsimp only at hres)
    | (rw [Eff.ofExcept_ok_bind_apply] at hres; try dsimp only at hres)
    | rw [Eff.ofExcept_error_bind_apply] at hres
    | (rw [Eff.ite_iff] at hres; obtain ⟨_, hres⟩ | ⟨_, hres⟩ := hres)
    | rw [Eff.bind_bind_eq] at hres
    | (rw [Eff.pure_bind_eq] at hres; try dsimp only at hres)
    | rw [Eff.pure_apply] at hres
    | rw [Eff.fail_apply] at hres
    | (rw [Prod.mk.injEq] at hres; obtain ⟨h1, h2⟩ := hres; subst h1 h2)
  all_goals simp_all [getAwsCredentials_no_download]

set_option maxHeartbeats 4000000 in
/-- The state file of each step of a fetch that makes the tainted probe on `f0`, path by
path through `in.Runner.Run`. -/
theorem fetch_state_file_of_each_step {V SV ρ D O : Type} (r : «in».Runner) (d : Deps V SV ρ D O)
    (req : models.InRequest V ρ) (f0 : terraform.StateFile D)
    (hprobe : Event.ExistsAsTainted f0 ∈ (r.Run d req).exec.2) :
    f0.RemotePath = d.EnvName req.Version ++ ".tfstate" ∧
    (∃ pre post, (r.Run d req).exec.2 = pre ++ Event.ExistsAsTainted f0 :: post ∧
      ((∀ g, Event.Exists g ∉ pre) ∧ (∀ g, Event.Download g ∉ pre))) ∧
    ∀ b, d.ExistsAsTainted f0 = Except.ok b →
      ∀ w, w = (if b then d.ConvertToTainted f0 else f0) →
        (∀ g, Event.Exists g ∈ (r.Run d req).exec.2 → g = w) ∧
        (∀ g, Event.Download g ∈ (r.Run d req).exec.2 → g = w) ∧
        (∀ c, Event.Output c ∈ (r.Run d req).exec.2 →
          c.Model.StateFileRemotePath = w.RemotePath) ∧
        (∀ c, Event.Version c ∈ (r.Run d req).exec.2 →
          c.Model.StateFileRemotePath = w.RemotePath) ∧
        (d.Exists w = Except.ok false → d.IsPlan req.Version = false →
          (r.Run d req).exec.1 = Outcome.error
            ("State file does not exist with key '" ++ w.RemotePath ++ "'."
              ++ "\nIf you intended to run the `destroy` action, add `put.get_params.action: destroy`."
              ++ "\nThis is a temporary requirement until Concourse supports a `delete` step.")) := by
  generalize hres : (r.Run d req).exec = res at hprobe ⊢
  obtain ⟨out, tr⟩ := res
  simp only [«in».Runner.Run, Eff.exec] at hres
  repeat' first
    | (rw [Eff.deferring_iff] at hres; obtain ⟨tr1, hres, rfl⟩ := hres)
    | (rw [Eff.call_bind_apply] at hres; try dsimp only at hres)
    | (rw [attempt_getAwsCredentials_then_iff] at hres
       obtain ⟨_, _, hres⟩ | ⟨_, _, hres⟩ | ⟨_, hres⟩ := hres <;> try dsimp only at hres)
    | (rw [Eff.ofExcept_ok_bind_apply] at hres; try dsimp only at hres)
    | rw [Eff.ofExcept_error_bind_apply] at hres
    | (rw [Eff.ofError_bind_iff] at hres
       obtain ⟨_, hres⟩ | ⟨_, _, hres⟩ := hres <;> try dsimp only at hres)
    | (rw [Eff.ofExcept_bind_iff] at hres
       obtain ⟨_, _, hres⟩ | ⟨_, _, hres⟩ := hres <;> try dsimp only at hres)
    | (rw [Eff.orFail_bind_iff] at hres
       obtain ⟨_, _, hres⟩ | ⟨_, _, hres⟩ := hres <;> try dsimp only at hres)
    | (rw [Eff.ite_bind_iff] at hres; obtain ⟨_, hres⟩ | ⟨_, hres⟩ := hres)
    | (rw [Eff.ite_iff] at hres; obtain ⟨_, hres⟩ | ⟨_, hres⟩ := hres)
    | rw [Eff.bind_bind_eq] at hres
    | (rw [Eff.pure_bind_eq] at hres; try dsimp only at hres)
    | rw [Eff.pure_apply] at hres
    | rw [Eff.fail_apply] at hres
    | (rw [Prod.mk.injEq] at hres; obtain ⟨h1, h2⟩ := hres; subst h1 h2)
  all_goals simp [getAwsCredentials_no_existsAsTainted] at hprobe
  all_goals subst hprobe
  all_goals refine ⟨rfl, ?_, ?_⟩
  all_goals try dsimp only
  all_goals try (
    repeat' first
      | exact exists_split_here _ _ _
          (by simp [getAwsCredentials_no_exists, getAwsCredentials_no_download])
      | apply exists_split_snoc)
  all_goals intro b
  all_goals rw [‹d.ExistsAsTainted _ = _›]
  all_goals intro hb
  all_goals cases hb
  all_goals intro w hw
  all_goals subst hw
  all_goals refine ⟨?_, ?_, ?_, ?_, ?_⟩
  all_goals first
    | (rw [‹d.Exists _ = _›]; intro hex; cases hex <;>
        (intro hp; first
          | rfl
          | exact absurd rfl ‹¬(!false) = true›
          | (rw [‹d.IsPlan req.Version = true›] at hp; cases hp)))
    | (intro x hx
       simp [getAwsCredentials_no_exists, getAwsCredentials_no_download,
         getAwsCredentials_no_output, getAwsCredentials_no_version] at hx
       try (subst hx; first | rfl | (dsimp only; split_ifs <;> rfl)))

set_option maxHeartbeats 4000000 in
/-- A fetch that makes an existence probe or a download has made a tainted probe before
any existence probe and any download. -/
theorem fetch_probe_needs_tainted_probe {V SV ρ D O : Type} (r : «in».Runner)
    (d : Deps V SV ρ D O) (req : models.InRequest V ρ) (g : terraform.StateFile D)
    (hg : Event.Exists g ∈ (r.Run d req).exec.2 ∨ Event.Download g ∈ (r.Run d req).exec.2) :
    ∃ f0 pre post, (r.Run d req).exec.2 = pre ++ Event.ExistsAsTainted f0 :: post ∧
      ((∀ g, Event.Exists g ∉ pre) ∧ (∀ g, Event.Download g ∉ pre)) := by
  generalize hres : (r.Run d req).exec = res at hg ⊢
  obtain ⟨out, tr⟩ := res
  simp only [«in».Runner.Run, Eff.exec] at hres
  repeat' first
    | (rw [Eff.deferring_iff] at hres; obtain ⟨tr1, hres, rfl⟩ := hres)
    | (rw [Eff.call_bind_apply] at hres; try dsimp only at hres)
    | (rw [attempt_getAwsCredentials_then_iff] at hres
       obtain ⟨_, _, hres⟩ | ⟨_, _, hres⟩ | ⟨_, hres⟩ := hres <;> try dsimp only at hres)
    | (rw [Eff.ofExcept_ok_bind_apply] at hres; try dsimp only at hres)
    | rw [Eff.ofExcept_error_bind_apply] at hres
    | (rw [Eff.ofError_bind_iff] at hres
       obtain ⟨_, hres⟩ | ⟨_, _, hres⟩ := hres <;> try dsimp only at hres)
    | (rw [Eff.ofExcept_bind_iff] at hres
       obtain ⟨_, _, hres⟩ | ⟨_, _, hres⟩ := hres <;> try dsimp only at hres)
    | (rw [Eff.orFail_bind_iff] at hres
       obtain ⟨_, _, hres⟩ | ⟨_, _, hres⟩ := hres <;> try dsimp only at hres)
    | (rw [Eff.ite_bind_iff] at hres; obtain ⟨_, hres⟩ | ⟨_, hres⟩ := hres)
    | (rw [Eff.ite_iff] at hres; obtain ⟨_, hres⟩ | ⟨_, hres⟩ := hres)
    | rw [Eff.bind_bind_eq] at hres
    | (rw [Eff.pure_bind_eq] at hres; try dsimp only at hres)
    | rw [Eff.pure_apply] at hres
    | rw [Eff.fail_apply] at hres
    | (rw [Prod.mk.injEq] at hres; obtain ⟨h1, h2⟩ := hres; subst h1 h2)
  all_goals simp [getAwsCredentials_no_exists, getAwsCredentials_no_download] at hg
  all_goals apply Exists.intro
  all_goals
    repeat' first
      | exact exists_split_here _ _ _
          (by simp [getAwsCredentials_no_exists, getAwsCredentials_no_download])
      | apply exists_split_snoc

set_option maxHeartbeats 4000000 in
/-- A fetch that is not a destroy and whose version, name file, temporary directory,
Vault configuration, credentials and storage configuration are in order makes the tainted
probe on the state file with key `<EnvName>.tfstate`, and, if that probe answers, the
existence probe on the state file chosen by the answer. -/
theorem fetch_makes_both_probes {V SV ρ D O : Type} (r : «in».Runner)
    (d : Deps V SV ρ D O) (req : models.InRequest V ρ) (tmpDir : String)
    (storageModel : storage.Model ρ) (f0 : terraform.StateFile D)
    (hvalid : d.VersionValidate req.Version = none)
    (hwrite : d.WriteFile (d.pathJoin r.OutputDir "name") (d.EnvName req.Version) = none)
    (haction : req.Params.Action ≠ d.DestroyAction)
    (htmp : d.TempDir d.osTempDir "terraform-resource-in" = Except.ok tmpDir)
    (hmodel :
      (req.Source.VaultConfiguration = VaultConfiguration.zero ∧
        storageModel = req.Source.Storage) ∨
      (req.Source.VaultConfiguration ≠ VaultConfiguration.zero ∧
        req.Source.VaultConfiguration.Validate = none ∧
        ∃ c, (GetAwsCredentials d req.Source.VaultConfiguration :
            Eff (Event ρ D O) AwsCredentials).exec.1 = Outcome.ok c ∧
          storageModel =
            { req.Source.Storage with
              AccessKeyID := c.AccessKeyID
              SecretAccessKey := c.SecretAccessKey
              SessionToken := c.SessionToken }))
    (hstorage : d.StorageValidate storageModel = none)
    (hf0 : f0 =
      { LocalPath := d.pathJoin tmpDir "terraform.tfstate"
        RemotePath := d.EnvName req.Version ++ ".tfstate"
        StorageDriver := d.BuildDriver storageModel }) :
    Event.ExistsAsTainted f0 ∈ (r.Run d req).exec.2 ∧
    ∀ b, d.ExistsAsTainted f0 = Except.ok b →
      Event.Exists (if b then d.ConvertToTainted f0 else f0) ∈ (r.Run d req).exec.2 := by
  subst hf0
  generalize hres : (r.Run d req).exec = res
  obtain ⟨out, tr⟩ := res
  simp only [«in».Runner.Run, Eff.exec] at hres
  rcases hmodel with ⟨hz, rfl⟩ | ⟨hne, hv, c, hc, rfl⟩
  all_goals repeat' first
    | rw [hvalid] at hres
    | rw [hwrite] at hres
    | rw [htmp] at hres
    | rw [hstorage] at hres
    | rw [if_neg haction] at hres
    | rw [if_neg (not_not.mpr ‹req.Source.VaultConfiguration = VaultConfiguration.zero›)] at hres
    | rw [if_pos ‹req.Source.VaultConfiguration ≠ VaultConfiguration.zero›] at hres
    | rw [‹req.Source.VaultConfiguration.Validate = none›] at hres
    | (rw [Eff.ofError_none_bind_apply] at hres; try dsimp only at hres)
    | (rw [Eff.orFail_ok_bind_apply] at hres; try dsimp only at hres)
    | (rw [attempt_getAwsCredentials_ok_then_apply _ _ _ ‹_›] at hres; try dsimp only at hres)
    | (rw [Eff.deferring_iff] at hres; obtain ⟨tr1, hres, rfl⟩ := hres)
    | (rw [Eff.call_bind_apply] at hres; try dsimp only at hres)
    | (rw [Eff.ofExcept_ok_bind_apply] at hres; try dsimp only at hres)
    | rw [Eff.ofExcept_error_bind_apply] at hres
    | (rw [Eff.ofError_bind_iff] at hres
       obtain ⟨_, hres⟩ | ⟨_, _, hres⟩ := hres <;> try dsimp only at hres)
    | (rw [Eff.ofExcept_bind_iff] at hres
       obtain ⟨_, _, hres⟩ | ⟨_, _, hres⟩ := hres <;> try dsimp only at hres)
    | (rw [Eff.ite_bind_iff] at hres; obtain ⟨_, hres⟩ | ⟨_, hres⟩ := hres)
    | (rw [Eff.ite_iff] at hres; obtain ⟨_, hres⟩ | ⟨_, hres⟩ := hres)
    | rw [Eff.bind_bind_eq] at hres
    | (rw [Eff.pure_bind_eq] at hres; try dsimp only at hres)
    | rw [Eff.pure_apply] at hres
    | rw [Eff.fail_apply] at hres
    | (rw [Prod.mk.injEq] at hres; obtain ⟨h1, h2⟩ := hres; subst h1 h2)
  all_goals refine ⟨by simp, fun b => ?_⟩
  all_goals rw [‹d.ExistsAsTainted _ = _›]
  all_goals intro hb
  all_goals cases hb
  all_goals simp

/-- C8: in every run of `in.Runner.Run`, an existence probe or a download is preceded by
a tainted probe, before which there is no existence probe and no download. For every
tainted probe of the run, on a state file `f0`: the remote key of `f0` is
`<EnvName>.tfstate`, no existence probe or download precedes it, and if the probe answers
`b`, then with `w` the state file `ConvertToTainted f0` for `b = true` and `f0` for
`b = false`: every existence probe and every download of the run is on `w`, the
Terraform model of the client has the remote path of `w`, and the error for an absent
state file names the remote path of `w`; and when the probe answers `true` and
`ConvertToTainted` changes the remote key, no existence probe and no download is on the
key `<EnvName>.tfstate`. And a request that is not a destroy, whose version passes
`Validate()`, whose name file is written, whose temporary directory is created, whose
Vault configuration is empty or passes `Validate()` with `GetAwsCredentials` returning
credentials, and whose storage configuration passes `Validate()`, makes the tainted probe
on the state file with key `<EnvName>.tfstate`, and, when the probe answers `b`, the
existence probe on the state file chosen by `b`. -/
theorem fetch_taint_precedence {V SV ρ D O : Type} (r : «in».Runner) (d : Deps V SV ρ D O)
    (req : models.InRequest V ρ) :
    (∀ g, Event.Exists g ∈ (r.Run d req).exec.2 ∨ Event.Download g ∈ (r.Run d req).exec.2 →
      ∃ f0 pre post, (r.Run d req).exec.2 = pre ++ Event.ExistsAsTainted f0 :: post ∧
        ((∀ g, Event.Exists g ∉ pre) ∧ (∀ g, Event.Download g ∉ pre))) ∧
    (∀ f0, Event.ExistsAsTainted f0 ∈ (r.Run d req).exec.2 →
      f0.RemotePath = d.EnvName req.Version ++ ".tfstate" ∧
      (∃ pre post, (r.Run d req).exec.2 = pre ++ Event.ExistsAsTainted f0 :: post ∧
        ((∀ g, Event.Exists g ∉ pre) ∧ (∀ g, Event.Download g ∉ pre))) ∧
      ∀ b, d.ExistsAsTainted f0 = Except.ok b →
        ∀ w, w = (if b then d.ConvertToTainted f0 else f0) →
          (∀ g, Event.Exists g ∈ (r.Run d req).exec.2 → g = w) ∧
          (∀ g, Event.Download g ∈ (r.Run d req).exec.2 → g = w) ∧
          (∀ c, Event.Output c ∈ (r.Run d req).exec.2 →
            c.Model.StateFileRemotePath = w.RemotePath) ∧
          (∀ c, Event.Version c ∈ (r.Run d req).exec.2 →
            c.Model.StateFileRemotePath = w.RemotePath) ∧
          (d.Exists w = Except.ok false → d.IsPlan req.Version = false →
            (r.Run d req).exec.1 = Outcome.error
              ("State file does not exist with key '" ++ w.RemotePath ++ "'."
                ++ "\nIf you intended to run the `destroy` action, add `put.get_params.action: destroy`."
                ++ "\nThis is a temporary requirement until Concourse supports a `delete` step.")) ∧
          (b = true → (d.ConvertToTainted f0).RemotePath ≠ f0.RemotePath →
            ∀ g, Event.Exists g ∈ (r.Run d req).exec.2 ∨
                Event.Download g ∈ (r.Run d req).exec.2 →
              g.RemotePath ≠ d.EnvName req.Version ++ ".tfstate")) ∧
    (∀ (tmpDir : String) (storageModel : storage.Model ρ) (f0 : terraform.StateFile D),
      d.VersionValidate req.Version = none →
      d.WriteFile (d.pathJoin r.OutputDir "name") (d.EnvName req.Version) = none →
      req.Params.Action ≠ d.DestroyAction →
      d.TempDir d.osTempDir "terraform-resource-in" = Except.ok tmpDir →
      ((req.Source.VaultConfiguration = VaultConfiguration.zero ∧
          storageModel = req.Source.Storage) ∨
        (req.Source.VaultConfiguration ≠ VaultConfiguration.zero ∧
          req.Source.VaultConfiguration.Validate = none ∧
          ∃ c, (GetAwsCredentials d req.Source.VaultConfiguration :
              Eff (Event ρ D O) AwsCredentials).exec.1 = Outcome.ok c ∧
            storageModel =
              { req.Source.Storage with
                AccessKeyID := c.AccessKeyID
                SecretAccessKey := c.SecretAccessKey
                SessionToken := c.SessionToken })) →
      d.StorageValidate storageModel = none →
      f0 =
        { LocalPath := d.pathJoin tmpDir "terraform.tfstate"
          RemotePath := d.EnvName req.Version ++ ".tfstate"
          StorageDriver := d.BuildDriver storageModel } →
      Event.ExistsAsTainted f0 ∈ (r.Run d req).exec.2 ∧
      ∀ b, d.ExistsAsTainted f0 = Except.ok b →
        Event.Exists (if b then d.ConvertToTainted f0 else f0) ∈ (r.Run d req).exec.2) := by
  refine ⟨fun g hg => fetch_probe_needs_tainted_probe r d req g hg, fun f0 hprobe => ?_,
    fun tmpDir storageModel f0 hvalid hwrite haction htmp hmodel hstorage hf0 =>
      fetch_makes_both_probes r d req tmpDir storageModel f0 hvalid hwrite haction htmp hmodel
        hstorage hf0⟩
  obtain ⟨hkey, horder, hsteps⟩ := fetch_state_file_of_each_step r d req f0 hprobe
  refine ⟨hkey, horder, fun b hb w hw => ?_⟩
  obtain ⟨hexists, hdownload, houtput, hversion, hmissing⟩ := hsteps b hb w hw
  refine ⟨hexists, hdownload, houtput, hversion, hmissing, ?_⟩
  intro htainted hchanged g hg
  have hgw : g = w := hg.elim (hexists g) (hdownload g)
  rw [hgw, hw, htainted, if_pos rfl, ← hkey]
  exact hchanged

/-- C10: in a fetch of `prod` with the Vault credentials `AK`, `SK`, `ST`, the environment
of the Terraform model handed to the client maps `TF_VAR_access_key` and
`TF_VAR_secret_key` to the session token `ST`, not to the access key `AK` and the secret
key `SK` that `AWS_ACCESS_KEY_ID` and `AWS_SECRET_ACCESS_KEY` receive. -/
theorem fetch_env_tf_var_keys_hold_session_token :
    (GetAwsCredentials Example.deps Example.vault).exec.1 =
      Outcome.ok { AccessKeyID := "AK", SecretAccessKey := "SK", SessionToken := "ST" } ∧
    Event.Output
        { Model :=
            { StateFileLocalPath := "/tmp/terraform-resource-in1/terraform.tfstate"
              StateFileRemotePath := "prod.tfstate"
              Env := some
                [("AWS_ACCESS_KEY_ID", "AK"), ("TF_VAR_access_key", "ST"),
                  ("AWS_SECRET_ACCESS_KEY", "SK"), ("TF_VAR_secret_key", "ST"),
                  ("AWS_SESSION_TOKEN", "ST"), ("TF_VAR_session_token", "ST")]
              OutputModule := "" }
          StorageDriver :=
            { AccessKeyID := "AK", SecretAccessKey := "SK", SessionToken := "ST", Rest := "b" } } ∈
      («in».Runner.Run ⟨"/out"⟩ Example.deps
        (Example.request Example.vault "b" ⟨"prod", 10, false⟩ "")).exec.2 ∧
    mapGet
        [("AWS_ACCESS_KEY_ID", "AK"), ("TF_VAR_access_key", "ST"),
          ("AWS_SECRET_ACCESS_KEY", "SK"), ("TF_VAR_secret_key", "ST"),
          ("AWS_SESSION_TOKEN", "ST"), ("TF_VAR_session_token", "ST")]
        "TF_VAR_access_key" = some "ST" := by
  refine ⟨rfl, ?_, ?_⟩ <;> decide

/-! ## Instances

The theorems above at the concrete collaborators of `Example`, and the inputs on which
two statements of the specification fail as they are written. -/

/-- A check with a complete Vault configuration, against a Vault that answers the write
with no secret and no error: `GetAwsCredentials` uses the nil secret and the run panics
after the two calls to Vault. -/
theorem check_panics_on_absent_secret :
    (GetAwsCredentials Example.silentVaultDeps Example.vault).exec.1 = Outcome.panic ∧
    (check.Runner.Run {} Example.silentVaultDeps
        (Example.request Example.vault "b" ⟨"prod", 10, false⟩ "")).exec =
      (Outcome.panic,
        [Event.VaultNewClient "https://vault", Event.VaultWrite Example.vault]) :=
  ⟨rfl, rfl⟩

/-- C1 at three checks: a first check (zero prior version) of a backend that holds
`prod.tfstate` emits it; a first check of an empty backend emits nothing; a check with
prior version `prod` modified at 10, with credentials from Vault, emits the latest,
modified at 20. -/
theorem check_emits_iff_latest_strictly_newer_witness :
    (Example.deps.VersionIsZero ⟨"", 0, false⟩ = true ∧
      (check.Runner.Run {} Example.deps (Example.request VaultConfiguration.zero "b" ⟨"", 0, false⟩ "")).exec.1 =
        Outcome.ok [⟨"prod.tfstate", 20, false⟩] ∧
      (Event.LatestVersion
          { LocalPath := "", RemotePath := "", StorageDriver := Example.deps.BuildDriver ({ AccessKeyID := "", SecretAccessKey := "", SessionToken := "", Rest := "b" } :
              storage.Model String) }
        ∈ (check.Runner.Run {} Example.deps (Example.request VaultConfiguration.zero "b" ⟨"", 0, false⟩ "")).exec.2 ∧
      ∃ versions, (check.Runner.Run {} Example.deps (Example.request VaultConfiguration.zero "b" ⟨"", 0, false⟩ "")).exec.1 = Outcome.ok versions ∧
        (versions ≠ [] ↔ Example.deps.StorageVersionIsZero (("prod.tfstate", 20) : String × Time) = false ∧
          (if Example.deps.VersionIsZero (Example.request VaultConfiguration.zero "b" ⟨"", 0, false⟩ "").Version then 0
            else Example.deps.LastModifiedTime (Example.request VaultConfiguration.zero "b" ⟨"", 0, false⟩ "").Version)
            < Example.deps.LastModified (("prod.tfstate", 20) : String × Time)) ∧
        (Example.deps.StorageVersionIsZero (("prod.tfstate", 20) : String × Time) = true → versions = []) ∧
        (Example.deps.LastModified (("prod.tfstate", 20) : String × Time)
            ≤ (if Example.deps.VersionIsZero (Example.request VaultConfiguration.zero "b" ⟨"", 0, false⟩ "").Version then 0
              else Example.deps.LastModifiedTime (Example.request VaultConfiguration.zero "b" ⟨"", 0, false⟩ "").Version) →
          versions = []))) ∧
    (Example.emptyDeps.StorageVersionIsZero ("", 0) = true ∧
      (check.Runner.Run {} Example.emptyDeps (Example.request VaultConfiguration.zero "b" ⟨"", 0, false⟩ "")).exec.1 =
        Outcome.ok [] ∧
      (Event.LatestVersion
          { LocalPath := "", RemotePath := "", StorageDriver := Example.emptyDeps.BuildDriver ({ AccessKeyID := "", SecretAccessKey := "", SessionToken := "", Rest := "b" } :
              storage.Model String) }
        ∈ (check.Runner.Run {} Example.emptyDeps (Example.request VaultConfiguration.zero "b" ⟨"", 0, false⟩ "")).exec.2 ∧
      ∃ versions, (check.Runner.Run {} Example.emptyDeps (Example.request VaultConfiguration.zero "b" ⟨"", 0, false⟩ "")).exec.1 = Outcome.ok versions ∧
        (versions ≠ [] ↔ Example.emptyDeps.StorageVersionIsZero (("", 0) : String × Time) = false ∧
          (if Example.emptyDeps.VersionIsZero (Example.request VaultConfiguration.zero "b" ⟨"", 0, false⟩ "").Version then 0
            else Example.emptyDeps.LastModifiedTime (Example.request VaultConfiguration.zero "b" ⟨"", 0, false⟩ "").Version)
            < Example.emptyDeps.LastModified (("", 0) : String × Time)) ∧
        (Example.emptyDeps.StorageVersionIsZero (("", 0) : String × Time) = true → versions = []) ∧
        (Example.emptyDeps.LastModified (("", 0) : String × Time)
            ≤ (if Example.emptyDeps.VersionIsZero (Example.request VaultConfiguration.zero "b" ⟨"", 0, false⟩ "").Version then 0
              else Example.emptyDeps.LastModifiedTime (Example.request VaultConfiguration.zero "b" ⟨"", 0, false⟩ "").Version) →
          versions = []))) ∧
    (Example.deps.VersionIsZero ⟨"prod", 10, false⟩ = false ∧
      Example.deps.VersionValidate ⟨"prod", 10, false⟩ = none ∧
      (GetAwsCredentials Example.deps Example.vault).exec.1 =
        Outcome.ok { AccessKeyID := "AK", SecretAccessKey := "SK", SessionToken := "ST" } ∧
      (Event.LatestVersion
          { LocalPath := "", RemotePath := "", StorageDriver := Example.deps.BuildDriver ({ AccessKeyID := "AK", SecretAccessKey := "SK", SessionToken := "ST", Rest := "b" } :
              storage.Model String) }
        ∈ (check.Runner.Run {} Example.deps (Example.request Example.vault "b" ⟨"prod", 10, false⟩ "")).exec.2 ∧
      ∃ versions, (check.Runner.Run {} Example.deps (Example.request Example.vault "b" ⟨"prod", 10, false⟩ "")).exec.1 = Outcome.ok versions ∧
        (versions ≠ [] ↔ Example.deps.StorageVersionIsZero (("prod.tfstate", 20) : String × Time) = false ∧
          (if Example.deps.VersionIsZero (Example.request Example.vault "b" ⟨"prod", 10, false⟩ "").Version then 0
            else Example.deps.LastModifiedTime (Example.request Example.vault "b" ⟨"prod", 10, false⟩ "").Version)
            < Example.deps.LastModified (("prod.tfstate", 20) : String × Time)) ∧
        (Example.deps.StorageVersionIsZero (("prod.tfstate", 20) : String × Time) = true → versions = []) ∧
        (Example.deps.LastModified (("prod.tfstate", 20) : String × Time)
            ≤ (if Example.deps.VersionIsZero (Example.request Example.vault "b" ⟨"prod", 10, false⟩ "").Version then 0
              else Example.deps.LastModifiedTime (Example.request Example.vault "b" ⟨"prod", 10, false⟩ "").Version) →
          versions = []))) :=
  ⟨⟨rfl, rfl,
      check_emits_iff_latest_strictly_newer {} Example.deps (Example.request VaultConfiguration.zero "b" ⟨"", 0, false⟩ "")
        _ _ (by decide) (Or.inl ⟨rfl, rfl⟩) rfl rfl⟩,
    ⟨rfl, rfl,
      check_emits_iff_latest_strictly_newer {} Example.emptyDeps (Example.request VaultConfiguration.zero "b" ⟨"", 0, false⟩ "")
        _ _ (by decide) (Or.inl ⟨rfl, rfl⟩) rfl rfl⟩,
    ⟨rfl, rfl, rfl,
      check_emits_iff_latest_strictly_newer {} Example.deps (Example.request Example.vault "b" ⟨"prod", 10, false⟩ "")
        _ _ (by decide) (Or.inr ⟨by decide, by decide, _, rfl, rfl⟩) rfl rfl⟩⟩

/-- C2 at the same check: the list returned is the new version of the latest object. -/
theorem check_emits_at_most_the_latest_witness :
    (check.Runner.Run {} Example.deps
        (Example.request Example.vault "b" ⟨"prod", 10, false⟩ "")).exec.1 =
      Outcome.ok [⟨"prod.tfstate", 20, false⟩] ∧
    ([⟨"prod.tfstate", 20, false⟩] : List Example.Version).length ≤ 1 ∧
      ∃ f sv,
        Event.LatestVersion f ∈
          (check.Runner.Run {} Example.deps
            (Example.request Example.vault "b" ⟨"prod", 10, false⟩ "")).exec.2 ∧
        Example.deps.LatestVersion f = Except.ok sv ∧
        (([⟨"prod.tfstate", 20, false⟩] : List Example.Version) = [] ∨
          [⟨"prod.tfstate", 20, false⟩] = [Example.deps.NewVersion sv]) :=
  ⟨rfl,
    check_emits_at_most_the_latest {} Example.deps
      (Example.request Example.vault "b" ⟨"prod", 10, false⟩ "") [⟨"prod.tfstate", 20, false⟩]
      rfl⟩

/-- C3 at a check whose prior version has a modification time and no environment name. -/
theorem check_malformed_version_is_fatal_witness :
    Example.deps.VersionIsZero ⟨"", 10, false⟩ = false ∧
    Example.deps.VersionValidate ⟨"", 10, false⟩ = some "Missing fields: 'version.env_name'" ∧
    (check.Runner.Run {} Example.deps
        (Example.request Example.vault "b" ⟨"", 10, false⟩ "")).exec =
      (Outcome.error
        ("Failed to validate provided version: " ++ "Missing fields: 'version.env_name'"), []) :=
  ⟨rfl, rfl,
    check_malformed_version_is_fatal {} Example.deps
      (Example.request Example.vault "b" ⟨"", 10, false⟩ "") _ rfl rfl⟩

/-- C4 as stated fails: with a complete Vault configuration and a storage configuration
without bucket, the check creates the Vault client and writes to Vault before it reports
the invalid storage configuration. -/
theorem check_vault_call_precedes_storage_validation :
    Example.deps.StorageValidate
        (Example.request Example.vault "" ⟨"prod", 10, false⟩ "").Source.Storage ≠ none ∧
    (check.Runner.Run {} Example.deps
        (Example.request Example.vault "" ⟨"prod", 10, false⟩ "")).exec =
      (Outcome.error "Failed to validate storage Model: Missing fields: 'storage.bucket'",
        [Event.VaultNewClient "https://vault", Event.VaultWrite Example.vault]) :=
  ⟨by decide, rfl⟩

/-- C4 as amended, at two checks without bucket: with no Vault configuration the run
returns an error and makes no external call; with a complete Vault configuration it
returns an error and its external calls are the two calls to Vault. -/
theorem check_invalid_storage_is_fatal_witness :
    (Example.deps.StorageValidate
        (Example.request VaultConfiguration.zero "" ⟨"prod", 10, false⟩ "").Source.Storage
        ≠ none ∧
      (∃ e, (check.Runner.Run {} Example.deps
          (Example.request VaultConfiguration.zero "" ⟨"prod", 10, false⟩ "")).exec.1
            = Outcome.error e) ∧
      (∀ m, Event.BuildDriver m ∉ (check.Runner.Run {} Example.deps
          (Example.request VaultConfiguration.zero "" ⟨"prod", 10, false⟩ "")).exec.2) ∧
      (∀ f, Event.LatestVersion f ∉ (check.Runner.Run {} Example.deps
          (Example.request VaultConfiguration.zero "" ⟨"prod", 10, false⟩ "")).exec.2) ∧
      (check.Runner.Run {} Example.deps
          (Example.request VaultConfiguration.zero "" ⟨"prod", 10, false⟩ "")).exec.2 = []) ∧
    (Example.deps.StorageValidate
        ({ AccessKeyID := "AK", SecretAccessKey := "SK", SessionToken := "ST", Rest := "" } :
          storage.Model String) ≠ none ∧
      (∃ e, (check.Runner.Run {} Example.deps
          (Example.request Example.vault "" ⟨"prod", 10, false⟩ "")).exec.1
            = Outcome.error e) ∧
      (∀ m, Event.BuildDriver m ∉ (check.Runner.Run {} Example.deps
          (Example.request Example.vault "" ⟨"prod", 10, false⟩ "")).exec.2) ∧
      (∀ f, Event.LatestVersion f ∉ (check.Runner.Run {} Example.deps
          (Example.request Example.vault "" ⟨"prod", 10, false⟩ "")).exec.2)) :=
  ⟨⟨by decide,
      ((check_invalid_storage_is_fatal {} Example.deps
        (Example.request VaultConfiguration.zero "" ⟨"prod", 10, false⟩ "")
        (fun _ => by decide) (fun h => absurd rfl h)).1.resolve_right
          (fun h => absurd h.1 (by decide))),
      (check_invalid_storage_is_fatal {} Example.deps
        (Example.request VaultConfiguration.zero "" ⟨"prod", 10, false⟩ "")
        (fun _ => by decide) (fun h => absurd rfl h)).2.1,
      (check_invalid_storage_is_fatal {} Example.deps
        (Example.request VaultConfiguration.zero "" ⟨"prod", 10, false⟩ "")
        (fun _ => by decide) (fun h => absurd rfl h)).2.2.1,
      rfl⟩,
    ⟨by decide,
      ((check_invalid_storage_is_fatal {} Example.deps
        (Example.request Example.vault "" ⟨"prod", 10, false⟩ "")
        (fun h => absurd h (by decide))
        (fun _ c hc => by
          have hc2 : Outcome.ok
              { AccessKeyID := "AK", SecretAccessKey := "SK", SessionToken := "ST" }
                = Outcome.ok c := hc
          cases hc2
          decide)).1.resolve_right (fun h => absurd h.1 (by decide))),
      (check_invalid_storage_is_fatal {} Example.deps
        (Example.request Example.vault "" ⟨"prod", 10, false⟩ "")
        (fun h => absurd h (by decide))
        (fun _ c hc => by
          have hc2 : Outcome.ok
              { AccessKeyID := "AK", SecretAccessKey := "SK", SessionToken := "ST" }
                = Outcome.ok c := hc
          cases hc2
          decide)).2.1,
      (check_invalid_storage_is_fatal {} Example.deps
        (Example.request Example.vault "" ⟨"prod", 10, false⟩ "")
        (fun h => absurd h (by decide))
        (fun _ c hc => by
          have hc2 : Outcome.ok
              { AccessKeyID := "AK", SecretAccessKey := "SK", SessionToken := "ST" }
                = Outcome.ok c := hc
          cases hc2
          decide)).2.2.1⟩⟩

/-- C5 as stated fails: a destroy request with a storage configuration without bucket
succeeds. -/
theorem fetch_destroy_skips_storage_validation :
    Example.deps.StorageValidate
        (Example.request VaultConfiguration.zero "" ⟨"qa", 10, false⟩ "destroy").Source.Storage
      ≠ none ∧
    («in».Runner.Run ⟨"/out"⟩ Example.deps
        (Example.request VaultConfiguration.zero "" ⟨"qa", 10, false⟩ "destroy")).exec.1 =
      Outcome.ok { Version := ⟨"qa", 10, false⟩, Metadata := [] } :=
  ⟨by decide, rfl⟩

/-- C5 as amended, at a fetch with no Vault configuration, no bucket and no action, and at
a fetch with a Vault configuration without token. -/
theorem fetch_invalid_configuration_is_fatal_witness :
    ((Example.request VaultConfiguration.zero "" ⟨"qa", 10, false⟩ "").Params.Action
        ≠ Example.deps.DestroyAction ∧
      Example.deps.StorageValidate
          (Example.request VaultConfiguration.zero "" ⟨"qa", 10, false⟩ "").Source.Storage
        ≠ none ∧
      ∃ e, («in».Runner.Run ⟨"/out"⟩ Example.deps
          (Example.request VaultConfiguration.zero "" ⟨"qa", 10, false⟩ "")).exec.1
            = Outcome.error e) ∧
    (VaultConfiguration.Validate
          { Address := "https://vault", SecretPath := "aws/sts/deploy", Token := "", TTL := 900 }
        ≠ none ∧
      ∃ e, («in».Runner.Run ⟨"/out"⟩ Example.deps
          (Example.request
            { Address := "https://vault", SecretPath := "aws/sts/deploy", Token := "",
              TTL := 900 } "b" ⟨"qa", 10, false⟩ "")).exec.1
            = Outcome.error e) :=
  ⟨⟨by decide, by decide,
      (fetch_invalid_configuration_is_fatal ⟨"/out"⟩ Example.deps
        (Example.request VaultConfiguration.zero "" ⟨"qa", 10, false⟩ "")
        (by decide) (Or.inr ⟨fun _ => by decide, fun h => absurd rfl h⟩)).resolve_right
          (fun h => absurd h.1 (by decide))⟩,
    ⟨by decide,
      (fetch_invalid_configuration_is_fatal ⟨"/out"⟩ Example.deps
        (Example.request
          { Address := "https://vault", SecretPath := "aws/sts/deploy", Token := "",
            TTL := 900 } "b" ⟨"qa", 10, false⟩ "")
        (by decide) (Or.inl ⟨by decide, by decide⟩)).resolve_right
          (fun h => absurd h.1 (by decide))⟩⟩

/-- C6 at a destroy request for `qa`. -/
theorem fetch_destroy_returns_version_only_witness :
    Example.deps.VersionValidate ⟨"qa", 10, false⟩ = none ∧
    Example.deps.WriteFile "/out/name" "qa" = none ∧
    («in».Runner.Run ⟨"/out"⟩ Example.deps
        (Example.request Example.vault "b" ⟨"qa", 10, false⟩ "destroy")).exec =
      (Outcome.ok { Version := ⟨"qa", 10, false⟩, Metadata := [] },
        [Event.WriteFile "/out/name" "qa"]) :=
  ⟨rfl, rfl,
    fetch_destroy_returns_version_only ⟨"/out"⟩ Example.deps
      (Example.request Example.vault "b" ⟨"qa", 10, false⟩ "destroy") rfl rfl rfl⟩

/-- C7 at two fetches of `qa`, which the backend does not hold: for a plan version the
run returns the version alone and downloads nothing; for a version that is not a plan the
error names `qa.tfstate`. -/
theorem fetch_absent_state_file_witness :
    (Example.deps.IsPlan ⟨"qa", 10, true⟩ = true ∧
      Example.deps.Exists
          { LocalPath := "/tmp/terraform-resource-in1/terraform.tfstate"
            RemotePath := "qa.tfstate"
            StorageDriver :=
              { AccessKeyID := "AK", SecretAccessKey := "SK", SessionToken := "ST",
                Rest := "b" } }
        = Except.ok false ∧
      («in».Runner.Run ⟨"/out"⟩ Example.deps
          (Example.request Example.vault "b" ⟨"qa", 10, true⟩ "")).exec.1 =
        Outcome.ok { Version := ⟨"qa", 10, true⟩, Metadata := [] } ∧
      ∀ g, Event.Download g ∉
        («in».Runner.Run ⟨"/out"⟩ Example.deps
          (Example.request Example.vault "b" ⟨"qa", 10, true⟩ "")).exec.2) ∧
    (Example.deps.IsPlan ⟨"qa", 10, false⟩ = false ∧
      ¬ (∃ resp, («in».Runner.Run ⟨"/out"⟩ Example.deps
          (Example.request VaultConfiguration.zero "b" ⟨"qa", 10, false⟩ "")).exec.1
            = Outcome.ok resp) ∧
      («in».Runner.Run ⟨"/out"⟩ Example.deps
          (Example.request VaultConfiguration.zero "b" ⟨"qa", 10, false⟩ "")).exec.1 =
        Outcome.error
          ("State file does not exist with key '" ++ "qa.tfstate" ++ "'."
            ++ "\nIf you intended to run the `destroy` action, add `put.get_params.action: destroy`."
            ++ "\nThis is a temporary requirement until Concourse supports a `delete` step.")) :=
  ⟨⟨rfl, rfl,
      (fetch_absent_state_file ⟨"/out"⟩ Example.deps
        (Example.request Example.vault "b" ⟨"qa", 10, true⟩ "")
        "/tmp/terraform-resource-in1"
        { AccessKeyID := "AK", SecretAccessKey := "SK", SessionToken := "ST", Rest := "b" }
        { LocalPath := "/tmp/terraform-resource-in1/terraform.tfstate"
          RemotePath := "qa.tfstate"
          StorageDriver :=
            { AccessKeyID := "AK", SecretAccessKey := "SK", SessionToken := "ST", Rest := "b" } }
        { LocalPath := "/tmp/terraform-resource-in1/terraform.tfstate"
          RemotePath := "qa.tfstate"
          StorageDriver :=
            { AccessKeyID := "AK", SecretAccessKey := "SK", SessionToken := "ST", Rest := "b" } }
        false rfl rfl (by decide) rfl (Or.inr ⟨by decide, by decide, _, rfl, rfl⟩) rfl rfl rfl
        rfl rfl).2.2.1 rfl⟩,
    ⟨rfl,
      fun h => absurd
        (((fetch_absent_state_file ⟨"/out"⟩ Example.deps
          (Example.request VaultConfiguration.zero "b" ⟨"qa", 10, false⟩ "")
          "/tmp/terraform-resource-in1"
          { AccessKeyID := "", SecretAccessKey := "", SessionToken := "", Rest := "b" }
          { LocalPath := "/tmp/terraform-resource-in1/terraform.tfstate"
            RemotePath := "qa.tfstate"
            StorageDriver :=
              { AccessKeyID := "", SecretAccessKey := "", SessionToken := "", Rest := "b" } }
          { LocalPath := "/tmp/terraform-resource-in1/terraform.tfstate"
            RemotePath := "qa.tfstate"
            StorageDriver :=
              { AccessKeyID := "", SecretAccessKey := "", SessionToken := "", Rest := "b" } }
          false rfl rfl (by decide) rfl (Or.inl ⟨rfl, rfl⟩) rfl rfl rfl rfl rfl).2.1).1 h)
        (by decide),
      (fetch_absent_state_file ⟨"/out"⟩ Example.deps
        (Example.request VaultConfiguration.zero "b" ⟨"qa", 10, false⟩ "")
        "/tmp/terraform-resource-in1"
        { AccessKeyID := "", SecretAccessKey := "", SessionToken := "", Rest := "b" }
        { LocalPath := "/tmp/terraform-resource-in1/terraform.tfstate"
          RemotePath := "qa.tfstate"
          StorageDriver :=
            { AccessKeyID := "", SecretAccessKey := "", SessionToken := "", Rest := "b" } }
        { LocalPath := "/tmp/terraform-resource-in1/terraform.tfstate"
          RemotePath := "qa.tfstate"
          StorageDriver :=
            { AccessKeyID := "", SecretAccessKey := "", SessionToken := "", Rest := "b" } }
        false rfl rfl (by decide) rfl (Or.inl ⟨rfl, rfl⟩) rfl rfl rfl rfl rfl).2.2.2 rfl⟩⟩

/-- C8 at a fetch of `staging`, of which the backend holds only the tainted state file:
the run makes the tainted probe on `staging.tfstate` and then the existence probe on
`staging.tfstate.tainted`, and every existence probe and download of the run is on
`staging.tfstate.tainted`. -/
theorem fetch_taint_precedence_witness :
    Example.taintedDeps.ExistsAsTainted
        { LocalPath := "/tmp/terraform-resource-in1/terraform.tfstate"
          RemotePath := "staging.tfstate"
          StorageDriver :=
            { AccessKeyID := "AK", SecretAccessKey := "SK", SessionToken := "ST", Rest := "b" } }
      = Except.ok true ∧
    (Event.ExistsAsTainted
        { LocalPath := "/tmp/terraform-resource-in1/terraform.tfstate"
          RemotePath := "staging.tfstate"
          StorageDriver :=
            { AccessKeyID := "AK", SecretAccessKey := "SK", SessionToken := "ST",
              Rest := "b" } } ∈
        («in».Runner.Run ⟨"/out"⟩ Example.taintedDeps
          (Example.request Example.vault "b" ⟨"staging", 10, false⟩ "")).exec.2 ∧
      Event.Exists
        { LocalPath := "/tmp/terraform-resource-in1/terraform.tfstate"
          RemotePath := "staging.tfstate.tainted"
          StorageDriver :=
            { AccessKeyID := "AK", SecretAccessKey := "SK", SessionToken := "ST",
              Rest := "b" } } ∈
        («in».Runner.Run ⟨"/out"⟩ Example.taintedDeps
          (Example.request Example.vault "b" ⟨"staging", 10, false⟩ "")).exec.2) ∧
    (∀ g, Event.Exists g ∈
        («in».Runner.Run ⟨"/out"⟩ Example.taintedDeps
          (Example.request Example.vault "b" ⟨"staging", 10, false⟩ "")).exec.2 →
      g = { LocalPath := "/tmp/terraform-resource-in1/terraform.tfstate"
            RemotePath := "staging.tfstate.tainted"
            StorageDriver :=
              { AccessKeyID := "AK", SecretAccessKey := "SK", SessionToken := "ST",
                Rest := "b" } }) ∧
    (∀ g, Event.Download g ∈
        («in».Runner.Run ⟨"/out"⟩ Example.taintedDeps
          (Example.request Example.vault "b" ⟨"staging", 10, false⟩ "")).exec.2 →
      g = { LocalPath := "/tmp/terraform-resource-in1/terraform.tfstate"
            RemotePath := "staging.tfstate.tainted"
            StorageDriver :=
              { AccessKeyID := "AK", SecretAccessKey := "SK", SessionToken := "ST",
                Rest := "b" } }) ∧
    (∃ f0 pre post,
      («in».Runner.Run ⟨"/out"⟩ Example.taintedDeps
          (Example.request Example.vault "b" ⟨"staging", 10, false⟩ "")).exec.2
        = pre ++ Event.ExistsAsTainted f0 :: post ∧
      ((∀ g, Event.Exists g ∉ pre) ∧ (∀ g, Event.Download g ∉ pre))) :=
  ⟨rfl,
    ⟨((fetch_taint_precedence ⟨"/out"⟩ Example.taintedDeps
        (Example.request Example.vault "b" ⟨"staging", 10, false⟩ "")).2.2
        "/tmp/terraform-resource-in1"
        { AccessKeyID := "AK", SecretAccessKey := "SK", SessionToken := "ST", Rest := "b" }
        _ rfl rfl (by decide) rfl (Or.inr ⟨by decide, by decide, _, rfl, rfl⟩) rfl rfl).1,
      ((fetch_taint_precedence ⟨"/out"⟩ Example.taintedDeps
        (Example.request Example.vault "b" ⟨"staging", 10, false⟩ "")).2.2
        "/tmp/terraform-resource-in1"
        { AccessKeyID := "AK", SecretAccessKey := "SK", SessionToken := "ST", Rest := "b" }
        _ rfl rfl (by decide) rfl (Or.inr ⟨by decide, by decide, _, rfl, rfl⟩) rfl rfl).2
        true rfl⟩,
    (((fetch_taint_precedence ⟨"/out"⟩ Example.taintedDeps
      (Example.request Example.vault "b" ⟨"staging", 10, false⟩ "")).2.1
      { LocalPath := "/tmp/terraform-resource-in1/terraform.tfstate"
        RemotePath := "staging.tfstate"
        StorageDriver :=
          { AccessKeyID := "AK", SecretAccessKey := "SK", SessionToken := "ST", Rest := "b" } }
      (by decide)).2.2 true rfl _ rfl).1,
    (((fetch_taint_precedence ⟨"/out"⟩ Example.taintedDeps
      (Example.request Example.vault "b" ⟨"staging", 10, false⟩ "")).2.1
      { LocalPath := "/tmp/terraform-resource-in1/terraform.tfstate"
        RemotePath := "staging.tfstate"
        StorageDriver :=
          { AccessKeyID := "AK", SecretAccessKey := "SK", SessionToken := "ST", Rest := "b" } }
      (by decide)).2.2 true rfl _ rfl).2.1,
    (fetch_taint_precedence ⟨"/out"⟩ Example.taintedDeps
      (Example.request Example.vault "b" ⟨"staging", 10, false⟩ "")).1
      { LocalPath := "/tmp/terraform-resource-in1/terraform.tfstate"
        RemotePath := "staging.tfstate.tainted"
        StorageDriver :=
          { AccessKeyID := "AK", SecretAccessKey := "SK", SessionToken := "ST", Rest := "b" } }
      (Or.inl (by decide))⟩

end TerraformResource
